import Mathlib

/-!
Shallow embedding of the mx-bank-transaction-parser repository.

Strings are modeled as `List Char` (`Str`); JavaScript numbers are modeled as
exact rationals (`ℚ`): the sources only ever build numbers through
`parseFloat` on decimal strings, so the embedding parses sign, integer digits
and fraction digits exactly (scientific notation and float rounding are
outside the model).  JavaScript exceptions are modeled with `Except Unit`.
Console logging (`console.error` / `console.warn`) is modeled by returning a
list of log messages alongside the parse result.  Each definition carries a
comment naming the source function it embeds.
-/

/-- Strings are lists of characters. -/
abbrev Str := List Char

/-- Literal helper: the character list of a Lean string literal. -/
def str (x : String) : Str := x.data

/-- Apostrophe character (U+0027), written via its code point. -/
def apos : Char := Char.ofNat 39

/-- Double-quote character (U+0022). -/
def dquote : Char := Char.ofNat 34

/-- Letter enye (U+00D1), used by the RFC character class. -/
def enye : Char := Char.ofNat 209

/-- JavaScript whitespace class `\s` restricted to the usual ASCII members
(space, tab, newline, carriage return, vertical tab, form feed). -/
def isJsSpace (c : Char) : Bool :=
  c = ' ' || c = '\t' || c = '\n' || c = '\r' || c = Char.ofNat 11 || c = Char.ofNat 12

/-- Decimal digit test, the JavaScript regex class `\d`. -/
def isDigit (c : Char) : Bool :=
  '0' ≤ c && c ≤ '9'

/-- Uppercase ASCII letter test, the regex class `[A-Z]`. -/
def isUpper (c : Char) : Bool :=
  'A' ≤ c && c ≤ 'Z'

/-- Lowercase ASCII letter test. -/
def isLower (c : Char) : Bool :=
  'a' ≤ c && c ≤ 'z'

/-- ASCII letter test, the regex class `[A-Za-z]`. -/
def isAlpha (c : Char) : Bool :=
  isUpper c || isLower c

/-- Models `String.prototype.trim` (strips `\s` from both ends). -/
def trim (s : Str) : Str :=
  ((s.dropWhile isJsSpace).reverse.dropWhile isJsSpace).reverse

/-- Models `String.prototype.toLowerCase` on the ASCII range used by the
sources (bank identifiers, operation-type flags). -/
def toLowerStr (s : Str) : Str :=
  s.map Char.toLower

/-- Models `str.substring(a, b)` for `a ≤ b` (fields are cut at fixed
offsets; JavaScript clamps the indices to the string length). -/
def jsSubstring (a b : Nat) (s : Str) : Str :=
  (s.drop a).take (b - a)

/-- Models `str.substring(a)` (suffix from offset `a`). -/
def jsSubstringFrom (a : Nat) (s : Str) : Str :=
  s.drop a

/-- If `pat` is a prefix of `s`, return the remainder of `s` after it. -/
def dropLit : Str → Str → Option Str
  | [], s => some s
  | _ :: _, [] => none
  | p :: ps, c :: cs => if p = c then dropLit ps cs else none

/-- Models `String.prototype.startsWith`. -/
def startsWithStr (pat s : Str) : Bool :=
  (dropLit pat s).isSome

/-- Models `String.prototype.includes` (substring occurrence test). -/
def containsSub (pat : Str) : Str → Bool
  | [] => (dropLit pat ([] : Str)).isSome
  | c :: t => (dropLit pat (c :: t)).isSome || containsSub pat t

/-- Leftmost-match combinator: apply `f` to every suffix of `s` from the left
and return the first success.  This is how a JavaScript regex engine scans a
subject string for an unanchored pattern. -/
def scanFirst (f : Str → Option α) : Str → Option α
  | [] => f []
  | c :: t => (f (c :: t)).orElse (fun _ => scanFirst f t)

/-- Rightmost-match combinator, used for a greedy `.*` followed by a literal
(the engine backtracks to the last position where the tail matches). -/
def scanLast (f : Str → Option α) : Str → Option α
  | [] => f []
  | c :: t => (scanLast f t).orElse (fun _ => f (c :: t))

/-- Leftmost match of a pattern that begins with the literal `label`:
at each position the literal must match and `k` continues on the rest. -/
def matchLit (label : Str) (k : Str → Option α) (s : Str) : Option α :=
  scanFirst (fun suf => (dropLit label suf).bind k) s

/-- Split a run of characters satisfying `p` off the front (greedy `p*`). -/
def takeRun (p : Char → Bool) (s : Str) : Str × Str :=
  (s.takeWhile p, s.dropWhile p)

/-- Length of the maximal run of characters satisfying `p` at the front. -/
def runLen (p : Char → Bool) (s : Str) : Nat :=
  (s.takeWhile p).length

/-- Candidate lengths for a greedy quantifier: `n, n-1, ..., 1`. -/
def descRange : Nat → List Nat
  | 0 => []
  | n + 1 => (n + 1) :: descRange n

/-- Candidate lengths for a lazy quantifier: `1, 2, ..., n`. -/
def ascRange (n : Nat) : List Nat :=
  (descRange n).reverse

/-- Models `String.prototype.split` with a single-character separator. -/
def splitOnChar (c : Char) : Str → List Str
  | [] => [[]]
  | ch :: rest =>
    if ch = c then [] :: splitOnChar c rest
    else
      match splitOnChar c rest with
      | p :: ps => (ch :: p) :: ps
      | [] => [[ch]]

/-- Models `content.split(/\r?\n/)`: split at every `\n`, additionally
consuming a `\r` that immediately precedes the `\n`. -/
def splitLines : Str → List Str
  | [] => [[]]
  | '\r' :: '\n' :: rest => [] :: splitLines rest
  | '\n' :: rest => [] :: splitLines rest
  | c :: rest =>
    match splitLines rest with
    | p :: ps => (c :: p) :: ps
    | [] => [[c]]

/-- Take characters of `s` up to (excluding) the next occurrence of the
nonempty separator `label`; used to model the `[1]` element of a
`String.prototype.split(label)` call. -/
def upToNext (label : Str) : Str → Str
  | [] => []
  | c :: t =>
    if startsWithStr label (c :: t) then []
    else c :: upToNext label t

/-- Take characters up to (excluding) the first occurrence of `ch`. -/
def takeUntilChar (ch : Char) (s : Str) : Str :=
  s.takeWhile (fun c => c ≠ ch)

/-- Models the idiom `line.split(label)[1]?.split(',')[0]?.trim() || ''`
found in the header-metadata extractors: text after the first occurrence of
`label`, cut at the next occurrence of `label` and at the next comma,
trimmed; empty when `label` does not occur. -/
def splitFieldComma (label : Str) (line : Str) : Str :=
  (matchLit label (fun rest => some (trim (takeUntilChar ',' (upToNext label rest)))) line).getD []

/-- Models `line.split(label)[1]?.trim() || ''` (no comma cut). -/
def splitFieldRaw (label : Str) (line : Str) : Str :=
  (matchLit label (fun rest => some (trim (upToNext label rest))) line).getD []

/-- Value of a list of decimal digits. -/
def digitsToNat : Str → Nat
  | [] => 0
  | c :: t => digitsToNat t + (c.toNat - '0'.toNat) * 10 ^ t.length

/-- Models `parseFloat` on the decimal shapes produced by the sources:
optional leading whitespace, optional sign, then digits with an optional
fraction (`\d+(\.\d*)?` or `.\d+`).  Returns `none` for NaN.  The numeric
prefix rule of `parseFloat` is respected: trailing garbage is ignored. -/
def jsParseFloat (sIn : Str) : Option ℚ :=
  let s := sIn.dropWhile isJsSpace
  let (neg, s1) : Bool × Str :=
    match s with
    | '-' :: t => (true, t)
    | '+' :: t => (false, t)
    | _ => (false, s)
  let (intPart, s2) := takeRun isDigit s1
  let (fracPart, _) : Str × Str :=
    match s2 with
    | '.' :: t => takeRun isDigit t
    | _ => ([], [])
  if intPart = [] && fracPart = [] then none
  else
    let iv := digitsToNat intPart
    let fv := digitsToNat fracPart
    let scale := 10 ^ fracPart.length
    let n : Int := (iv * scale + fv : Nat)
    some (mkRat (if neg then -n else n) scale)

/-- Models `parseFloat(s) || 0` (NaN coerced to 0). -/
def jsParseFloatOr0 (s : Str) : ℚ :=
  (jsParseFloat s).getD 0

/-- Models `x || null` on a nullable string: the empty string is falsy in
JavaScript and collapses to `null`. -/
def orNull (o : Option Str) : Option Str :=
  match o with
  | some s => if s.isEmpty then none else some s
  | none => none

/-- Models `x || y` on strings (`x` when non-empty, else `y`). -/
def orStr (x y : Str) : Str :=
  if x.isEmpty then y else x

/-- Models `!isNaN(parseInt(s))`: after optional whitespace and sign there is
at least one decimal digit. -/
def jsParseIntValid (sIn : Str) : Bool :=
  let s := sIn.dropWhile isJsSpace
  let s1 :=
    match s with
    | '-' :: t => t
    | '+' :: t => t
    | _ => s
  !(s1.takeWhile isDigit).isEmpty

/-- Models `parseInt(s) || 0` (radix 10). -/
def jsParseIntOr0 (sIn : Str) : Int :=
  let s := sIn.dropWhile isJsSpace
  let (neg, s1) : Bool × Str :=
    match s with
    | '-' :: t => (true, t)
    | '+' :: t => (false, t)
    | _ => (false, s)
  let ds := s1.takeWhile isDigit
  if ds.isEmpty then 0
  else if neg then -(digitsToNat ds : Int) else (digitsToNat ds : Int)

/-- Models `String.prototype.padStart(2, '0')`. -/
def padStart2 (x : Str) : Str :=
  List.replicate (2 - x.length) '0' ++ x

mutual

/-- Collapse every whitespace run into one space: `replace(/\s+/g, ' ')`. -/
def collapseWs : Str → Str
  | [] => []
  | c :: t =>
    if isJsSpace c then ' ' :: collapseWsInRun t
    else c :: collapseWs t

/-- State of `collapseWs` inside a whitespace run (the run's single space
has already been emitted). -/
def collapseWsInRun : Str → Str
  | [] => []
  | c :: t =>
    if isJsSpace c then collapseWsInRun t
    else c :: collapseWs t

end

/-- Remove the leftmost regex match from a string, where `tryLen` reports
the match length when the pattern matches at the given suffix; models
`String.prototype.replace(re, '')` without the global flag. -/
def removeFirst (tryLen : Str → Option Nat) : Str → Str
  | [] => []
  | c :: t =>
    match tryLen (c :: t) with
    | some n => (c :: t).drop n
    | none => c :: removeFirst tryLen t

/-! ## Per-parser row shapes

One structure per tokenizer, with the canonical field names each parser's
row-mapping step produces.  Fields that can be `undefined` (missing columns
under `relax_column_count`) are `Option`-valued. -/

/-- Row of `AfirmeParser`: the csv `cast` hook has already converted the
`debit`/`credit`/`balance` columns to numbers via `_parseNumber`. -/
structure AfirmeRecord where
  date : Str
  description : Str
  reference : Str
  account : Str
  debit : ℚ
  credit : ℚ
  balance : ℚ
  deriving DecidableEq

/-- Row of `SantanderParser._parseDataLine`: nine string columns. -/
structure SantanderRecord where
  date : Str
  time : Str
  branch : Str
  description : Str
  debit : Str
  credit : Str
  balance : Str
  reference : Str
  concept : Str
  deriving DecidableEq

/-- Row of the second `BanorteParser` (header-mapped, pipe-delimited). -/
structure BanorteV2Record where
  date : Str
  reference : Str
  description : Str
  deposits : Str
  withdrawals : Str
  balance : Str
  account : Str
  detailedDescription : Str
  deriving DecidableEq

/-- Row of the first `BanorteParser` (Papa-parsed, Spanish keys). -/
structure BanorteV1Record where
  account : Str
  date : Str
  reference : Str
  description : Str
  deposits : Str
  withdrawals : Str
  balance : Str
  deriving DecidableEq

/-- Row of the first `BanregioParser` (fixed column list, numeric columns
cast by `_parseCurrency`; missing columns are `none`). -/
structure BanregioV1Record where
  date : Option Str
  description : Option Str
  reference : Option Str
  classification : Option Str
  debit : Option ℚ
  credit : Option ℚ
  balance : Option ℚ
  deriving DecidableEq

/-- Row of `BanBajioParser` (banbajio-parser.js): fixed column list with
`sequence` cast by `parseInt || 0` and the money columns by `_parseNumber`. -/
structure BanBajioRecord where
  sequence : Int
  date : Option Str
  time : Option Str
  receipt : Option Str
  description : Option Str
  debit : Option ℚ
  credit : Option ℚ
  balance : Option ℚ
  deriving DecidableEq

/-- Fixed-offset segments of a Scotiabank line (`ScotiabankParser.parseRow`). -/
structure ScotiaSegments where
  recordType : Str
  accountNumber : Str
  date : Str
  reference : Str
  amount : Str
  operationType : Str
  balance : Str
  description : Str
  extra : Str
  deriving DecidableEq

/-- Result object of `ScotiabankParser._parseDescription`. -/
structure ScotiaDescInfo where
  description : Str
  actualDescription : Str
  beneficiary : Option Str
  trackingKey : Option Str
  time : Option Str
  concept : Option Str
  rawDescription : Str
  deriving DecidableEq

/-! ## Data model

`Transaction` embeds `src/src/models/transaction.js`: its constructor
destructures exactly the parameters `date, hour, type, amount, balance,
description, reference, bank, accountNumber, beneficiary, trackingKey,
extra` (with `null` defaults for the optional ones) and stores them.
`TransactionParams` collects every named argument that any parser passes to
`new Transaction({...})`; `mkTransaction` is the constructor. -/

/-- The `bank` argument is either a plain string (older parser revisions)
or an `id / code / name` object. -/
inductive BankVal where
  | plain (s : Str)
  | info (id code name : Str)
  deriving DecidableEq

/-- The transaction type tag strings used by the parsers. -/
def creditStr : Str := str "credit"

/-- The debit tag string. -/
def debitStr : Str := str "debit"

/-- Uniform output record, with exactly the fields stored by the
`Transaction` constructor (`src/src/models/transaction.js`, lines 21-47). -/
structure Transaction where
  date : Str
  hour : Option Str
  type : Str
  amount : ℚ
  balance : ℚ
  description : Str
  reference : Str
  bank : BankVal
  accountNumber : Option Str
  beneficiary : Option Str
  trackingKey : Option Str
  extra : Option Str
  deriving DecidableEq

/-- Serialized payload passed as the `raw:` argument; models the result of
`JSON.stringify(record)` as an injection of the record (the constructor
discards the argument, see `mkTransaction`). -/
inductive RawData where
  | afirme (r : AfirmeRecord)
  | santander (r : SantanderRecord)
  | banorte2 (r : BanorteV2Record)
  | banorte1 (r : BanorteV1Record)
  | banbajio (r : BanBajioRecord)
  | banregio1 (r : BanregioV1Record)
  | scotiabank (segments : ScotiaSegments) (info : ScotiaDescInfo)
  | ofChars (s : Str)
  deriving DecidableEq

/-- Every named argument some parser passes to `new Transaction({...})`.
Arguments absent from a particular call site keep their `undefined`/default
value (`none`). -/
structure TransactionParams where
  date : Str := []
  hour : Option Str := none
  time : Option Str := none
  type : Str := []
  amount : ℚ := 0
  balance : ℚ := 0
  description : Str := []
  reference : Str := []
  bank : BankVal := BankVal.plain []
  accountNumber : Option Str := none
  account : Option Str := none
  beneficiary : Option Str := none
  trackingKey : Option Str := none
  rfc : Option Str := none
  concept : Option Str := none
  transactionDate : Option Str := none
  currency : Option Str := none
  raw : Option RawData := none
  extra : Option Str := none

/-- The `Transaction` constructor: destructures only the twelve parameters
listed in `src/src/models/transaction.js` and stores them; every other
argument (`time`, `rfc`, `concept`, `raw`, `account`, ...) is dropped. -/
def mkTransaction (p : TransactionParams) : Transaction :=
  { date := p.date
    hour := p.hour
    type := p.type
    amount := p.amount
    balance := p.balance
    description := p.description
    reference := p.reference
    bank := p.bank
    accountNumber := p.accountNumber
    beneficiary := p.beneficiary
    trackingKey := p.trackingKey
    extra := p.extra }

/-! ## RFC tax-id pattern

The regex core
`[A-Z&Ñ]{3,4}[0-9]{2}(0[1-9]|1[0-2])(0[1-9]|[12][0-9]|3[01])[A-Z0-9]{2}[0-9A]`
is shared (with varying prefixes) by the Afirme, Banorte and BanBajio
miners. -/

/-- Character class `[A-Z&Ñ]` of the RFC prefix. -/
def isRfcLetter (c : Char) : Bool :=
  isUpper c || c = '&' || c = enye

/-- Character class `[A-Z0-9]`. -/
def isUpperDigit (c : Char) : Bool :=
  isUpper c || isDigit c

/-- Take exactly `n` characters satisfying `p`. -/
def takeExact (p : Char → Bool) : Nat → Str → Option (Str × Str)
  | 0, s => some ([], s)
  | _ + 1, [] => none
  | n + 1, c :: t =>
    if p c then (takeExact p n t).map (fun (m, r) => (c :: m, r))
    else none

/-- Month alternative `(0[1-9]|1[0-2])`. -/
def takeMonth : Str → Option (Str × Str)
  | '0' :: c :: t => if '1' ≤ c && c ≤ '9' then some (['0', c], t) else none
  | '1' :: c :: t => if '0' ≤ c && c ≤ '2' then some (['1', c], t) else none
  | _ => none

/-- Day alternative `(0[1-9]|[12][0-9]|3[01])`. -/
def takeDay : Str → Option (Str × Str)
  | '0' :: c :: t => if '1' ≤ c && c ≤ '9' then some (['0', c], t) else none
  | '1' :: c :: t => if isDigit c then some (['1', c], t) else none
  | '2' :: c :: t => if isDigit c then some (['2', c], t) else none
  | '3' :: c :: t => if c = '0' || c = '1' then some (['3', c], t) else none
  | _ => none

/-- RFC core with exactly `k` leading letters; returns the matched text and
the rest of the input. -/
def rfcCoreK (k : Nat) (s : Str) : Option (Str × Str) := do
  let (ls, r1) ← takeExact isRfcLetter k s
  let (ys, r2) ← takeExact isDigit 2 r1
  let (mo, r3) ← takeMonth r2
  let (dy, r4) ← takeDay r3
  let (hk, r5) ← takeExact isUpperDigit 2 r4
  match r5 with
  | c :: r6 =>
    if isDigit c || c = 'A' then some (ls ++ ys ++ mo ++ dy ++ hk ++ [c], r6)
    else none
  | [] => none

/-- RFC core with the greedy `{3,4}` quantifier: four letters are tried
first, three on backtracking. -/
def rfcCore (s : Str) : Option (Str × Str) :=
  (rfcCoreK 4 s).orElse (fun _ => rfcCoreK 3 s)

/-! ## Currency / number normalizers (one per parser) -/

namespace SantanderParser

/-- Embeds `SantanderParser._parseCurrency`: empty, blank or the literal
`'0'` yield 0; otherwise double quotes, apostrophes and commas are removed,
the result trimmed and `parseFloat`-ed with NaN coerced to 0.  Note: the
dollar sign is NOT stripped. -/
def parseCurrency (s : Str) : ℚ :=
  if s = [] || trim s = [] || s = ['0'] then 0
  else jsParseFloatOr0 (trim (s.filter (fun c => !(c = dquote || c = apos || c = ','))))

/-- Embeds `SantanderParser._formatDate` (DDMMYYYY to YYYY-MM-DD); any input
whose length is not 8 is returned unchanged. -/
def formatDate (input : Str) : Str :=
  if input = [] || input.length ≠ 8 then input
  else
    let day := jsSubstring 0 2 input
    let month := jsSubstring 2 4 input
    let year := jsSubstring 4 8 input
    year ++ ['-'] ++ month ++ ['-'] ++ day

end SantanderParser

namespace AfirmeParser

/-- Embeds `AfirmeParser._parseNumber`: strips commas only, trims, then
`parseFloat || 0`. -/
def parseNumber (s : Str) : ℚ :=
  if s = [] || trim s = [] then 0
  else jsParseFloatOr0 (trim (s.filter (fun c => c ≠ ',')))

/-- Embeds `AfirmeParser._formatDate`.  The source destructures
`input.split('/')` into day, month, year and reads `year.length`; when the
split yields fewer than three parts `year` is `undefined` and the property
access throws a `TypeError`, modeled as `Except.error`. -/
def formatDate (input : Str) : Except Unit Str :=
  match splitOnChar '/' input with
  | day :: month :: year :: _ =>
    let fullYear := if year.length = 2 then str "20" ++ year else year
    .ok (fullYear ++ ['-'] ++ padStart2 month ++ ['-'] ++ padStart2 day)
  | _ => .error ()

end AfirmeParser

namespace BanorteParserV2

/-- Embeds the second `BanorteParser._parseCurrency` (banorte-parser.js,
lines 389-393): `$0.00` sentinel, then dollar signs and commas stripped. -/
def parseCurrency (s : Str) : ℚ :=
  if s = [] || trim s = [] || s = str "$0.00" then 0
  else jsParseFloatOr0 (trim (s.filter (fun c => !(c = '$' || c = ','))))

/-- Embeds the second `BanorteParser._formatDate`: destructures
`input.split('/')`.  With two parts, `year` is `undefined` and the template
literal renders the string `undefined`; with one part, `month.padStart`
throws. -/
def formatDate (input : Str) : Except Unit Str :=
  match splitOnChar '/' input with
  | day :: month :: year :: _ =>
    .ok (year ++ ['-'] ++ padStart2 month ++ ['-'] ++ padStart2 day)
  | [day, month] =>
    .ok (str "undefined" ++ ['-'] ++ padStart2 month ++ ['-'] ++ padStart2 day)
  | _ => .error ()

end BanorteParserV2

namespace BanorteParserV1

/-- Embeds the first `BanorteParser._parseMoney` (banorte-parser.js, lines
76-79): only the empty string short-circuits; `$` and `,` are stripped. -/
def parseMoney (s : Str) : ℚ :=
  if s = [] then 0
  else jsParseFloatOr0 (s.filter (fun c => !(c = '$' || c = ',')))

/-- Embeds the first `BanorteParser._formatDate`; same destructuring of
`input.split('/')` as the v2 formatter. -/
def formatDate (input : Str) : Except Unit Str :=
  match splitOnChar '/' input with
  | day :: month :: year :: _ =>
    .ok (year ++ ['-'] ++ padStart2 month ++ ['-'] ++ padStart2 day)
  | [day, month] =>
    .ok (str "undefined" ++ ['-'] ++ padStart2 month ++ ['-'] ++ padStart2 day)
  | _ => .error ()

end BanorteParserV1

namespace ScotiabankParser

/-- Embeds `ScotiabankParser._parseNumber`: empty or blank yields 0; the
anchored `replace(/^0+/, '')` drops leading zeros; `parseFloat || 0`. -/
def parseNumber (s : Str) : ℚ :=
  if s = [] || trim s = [] then 0
  else jsParseFloatOr0 (s.dropWhile (fun c => c = '0'))

/-- Embeds `ScotiabankParser._formatDate` (YYYY/MM/DD to YYYY-MM-DD): any
input whose length is not 10 is returned unchanged; otherwise every slash
is replaced by a dash. -/
def formatDate (input : Str) : Str :=
  if input = [] || input.length ≠ 10 then input
  else input.map (fun c => if c = '/' then '-' else c)

end ScotiabankParser

namespace BanregioParserV1

/-- Embeds the first `BanregioParser._parseCurrency` (unnamed/part_003,
lines 147-151): `$0.00` and `0.00` sentinels, `$` and `,` stripped. -/
def parseCurrency (s : Str) : ℚ :=
  if s = [] || trim s = [] || s = str "$0.00" || s = str "0.00" then 0
  else jsParseFloatOr0 (trim (s.filter (fun c => !(c = '$' || c = ','))))

/-- Embeds the first `BanregioParser._formatDate`; destructures
`input.split('/')` like the Banorte formatters. -/
def formatDate (input : Str) : Except Unit Str :=
  match splitOnChar '/' input with
  | day :: month :: year :: _ =>
    .ok (year ++ ['-'] ++ padStart2 month ++ ['-'] ++ padStart2 day)
  | [day, month] =>
    .ok (str "undefined" ++ ['-'] ++ padStart2 month ++ ['-'] ++ padStart2 day)
  | _ => .error ()

end BanregioParserV1

namespace BanBajioParser

/-- Embeds `BanBajioParser._parseNumber` (banbajio-parser.js, lines
262-266): commas stripped, trimmed, `parseFloat || 0`. -/
def parseNumber (s : Str) : ℚ :=
  if s = [] || trim s = [] then 0
  else jsParseFloatOr0 (trim (s.filter (fun c => c ≠ ',')))

/-- Month-abbreviation table of `BanBajioParser._formatDate`. -/
def monthAbbrev (m : Str) : Str :=
  if m = str "Jan" then str "01" else if m = str "Feb" then str "02"
  else if m = str "Mar" then str "03" else if m = str "Apr" then str "04"
  else if m = str "May" then str "05" else if m = str "Jun" then str "06"
  else if m = str "Jul" then str "07" else if m = str "Aug" then str "08"
  else if m = str "Sep" then str "09" else if m = str "Oct" then str "10"
  else if m = str "Nov" then str "11" else if m = str "Dec" then str "12"
  else str "01"

/-- Embeds `BanBajioParser._formatDate` (DD-MMM-YYYY to YYYY-MM-DD); inputs
that do not split into exactly three dash-separated parts are returned
unchanged. -/
def formatDate (input : Str) : Str :=
  match splitOnChar '-' input with
  | [day, mon, year] => year ++ ['-'] ++ monthAbbrev mon ++ ['-'] ++ padStart2 day
  | _ => input

end BanBajioParser

namespace HsbcParser

/-- Embeds `HsbcParser._parseCurrency` on string inputs: commas stripped,
trimmed, `parseFloat || 0`. -/
def parseCurrency (s : Str) : ℚ :=
  if s = [] then 0
  else jsParseFloatOr0 (trim (s.filter (fun c => c ≠ ',')))

end HsbcParser

/-! ## Bank dispatcher (dist/index.esm.mjs, lines 498-513) -/

/-- The parser classes the bundled `getParserForBank` can instantiate. -/
inductive BankParser where
  | afirme
  | banbajio
  | banorte
  | bbva
  | scotiabank
  deriving DecidableEq

/-- Embeds `getParserForBank`: a `switch` on `bankName.toLowerCase()` over
five bank keys; the default branch throws an `Error` whose message names the
unrecognized identifier. -/
def getParserForBank (bankName : Str) : Except Str BankParser :=
  let lower := toLowerStr bankName
  if lower = str "afirme" then .ok .afirme
  else if lower = str "banbajio" then .ok .banbajio
  else if lower = str "banorte" then .ok .banorte
  else if lower = str "bbva" then .ok .bbva
  else if lower = str "scotiabank" then .ok .scotiabank
  else .error (str "No parser available for bank: " ++ bankName)

/-! ## Shared scanner pieces -/

/-- Greedy `\s+` (at least one whitespace character). -/
def takeSpaces1 (s : Str) : Option Str :=
  match s with
  | c :: t => if isJsSpace c then some (t.dropWhile isJsSpace) else none
  | [] => none

/-- Greedy `\s*`. -/
def takeSpaces0 (s : Str) : Str :=
  s.dropWhile isJsSpace

/-- The time pattern `\d{2}:\d{2}:\d{2}`; returns the matched text and the
rest. -/
def takeTime (s : Str) : Option (Str × Str) := do
  let (h, r1) ← takeExact isDigit 2 s
  match r1 with
  | ':' :: r2 => do
    let (m, r3) ← takeExact isDigit 2 r2
    match r3 with
    | ':' :: r4 => do
      let (sec, r5) ← takeExact isDigit 2 r4
      some (h ++ [':'] ++ m ++ [':'] ++ sec, r5)
    | _ => none
  | _ => none

/-- Leftmost occurrence of the bare time pattern `(\d{2}:\d{2}:\d{2})`. -/
def findTime (s : Str) : Option Str :=
  scanFirst (fun suf => (takeTime suf).map Prod.fst) s

/-- JavaScript dot `.`: any character except a line terminator. -/
def isDotChar (c : Char) : Bool :=
  !(c = '\n' || c = '\r')

namespace AfirmeParser

/-- Result object of `AfirmeParser._extractFromDescription`. -/
structure Extract where
  trackingKey : Option Str
  reference : Option Str
  hour : Option Str
  beneficiary : Option Str
  rfc : Option Str
  concept : Option Str
  rawDescription : Str
  deriving DecidableEq

/-- Regex `/RASTREO\s+([A-Z0-9]+)/`: label, one or more spaces, then a
maximal nonempty `[A-Z0-9]` run (the character classes are disjoint, so the
greedy quantifiers are deterministic). -/
def matchRastreo (d : Str) : Option Str :=
  matchLit (str "RASTREO")
    (fun rest => do
      let r1 ← takeSpaces1 rest
      let (cap, _) := takeRun isUpperDigit r1
      if cap = [] then none else some cap) d

/-- Regex `/REFERENCIA:(\S+)/`. -/
def matchReferencia (d : Str) : Option Str :=
  matchLit (str "REFERENCIA:")
    (fun rest =>
      let (cap, _) := takeRun (fun c => !isJsSpace c) rest
      if cap = [] then none else some cap) d

/-- Regex `/HORA:(\d{2}:\d{2}:\d{2})/`. -/
def matchHora (d : Str) : Option Str :=
  matchLit (str "HORA:") (fun rest => (takeTime rest).map Prod.fst) d

/-- Regex `/RFC\s+([A-Z&Ñ]{3,4}...[0-9A])/` (full RFC core after the label). -/
def matchRfc (d : Str) : Option Str :=
  matchLit (str "RFC")
    (fun rest => do
      let r1 ← takeSpaces1 rest
      (rfcCore r1).map Prod.fst) d

/-- Regex `/CONCEPTO\s+(\S+)/`. -/
def matchConcepto (d : Str) : Option Str :=
  matchLit (str "CONCEPTO")
    (fun rest => do
      let r1 ← takeSpaces1 rest
      let (cap, _) := takeRun (fun c => !isJsSpace c) r1
      if cap = [] then none else some cap) d

/-- Terminator `(?:\s+RFC\s+[A-Z])` of the beneficiary pattern. -/
def benefTerm (s : Str) : Bool :=
  (do
    let r1 ← takeSpaces1 s
    let r2 ← dropLit (str "RFC") r1
    let r3 ← takeSpaces1 r2
    match r3 with
    | c :: _ => if isUpper c then some () else none
    | [] => none).isSome

/-- Regex `/HORA:\d{2}:\d{2}:\d{2}\s+(.+?)(?:\s+RFC\s+[A-Z]|$)/`, used both
for the beneficiary and for `_buildActualDescription`.  After the literal
time prefix, the greedy `\s+` is tried from the longest run down and the
lazy `(.+?)` from the shortest capture up, stopping at the first position
where the trailing alternative (or the end of the string) matches. -/
def matchBenef (d : Str) : Option Str :=
  matchLit (str "HORA:")
    (fun rest => do
      let (_, r1) ← takeTime rest
      let maxSp := runLen isJsSpace r1
      (descRange maxSp).findSome? fun sp =>
        let body := r1.drop sp
        (ascRange body.length).findSome? fun k =>
          let cap := body.take k
          if cap.all isDotChar then
            let after := body.drop k
            if after = [] || benefTerm after then some cap else none
          else none) d

/-- Embeds `AfirmeParser._extractFromDescription` (lines 110-157): six
independent regex probes over the description text; nothing here can throw,
so the surrounding `try`/`catch` is dead. -/
def extractFromDescription (d : Str) : Extract :=
  { trackingKey := matchRastreo d
    reference := matchReferencia d
    hour := matchHora d
    rfc := matchRfc d
    concept := matchConcepto d
    beneficiary := (matchBenef d).map trim
    rawDescription := d }

/-- Match length of `/RASTREO\s+[A-Z0-9]+\s+/` at a suffix, for
`_cleanDescription`. -/
def cleanLenRastreo (suf : Str) : Option Nat := do
  let r1 ← dropLit (str "RASTREO") suf
  let (sp1, r2) := takeRun isJsSpace r1
  if sp1 = [] then none else
  let (run, r3) := takeRun isUpperDigit r2
  if run = [] then none else
  let (sp2, _) := takeRun isJsSpace r3
  if sp2 = [] then none else
  some (7 + sp1.length + run.length + sp2.length)

/-- Match length of `/REFERENCIA:\S+\s+/`. -/
def cleanLenReferencia (suf : Str) : Option Nat := do
  let r1 ← dropLit (str "REFERENCIA:") suf
  let (run, r2) := takeRun (fun c => !isJsSpace c) r1
  if run = [] then none else
  let (sp, _) := takeRun isJsSpace r2
  if sp = [] then none else
  some (11 + run.length + sp.length)

/-- Match length of `/HORA:\d{2}:\d{2}:\d{2}\s+/`. -/
def cleanLenHora (suf : Str) : Option Nat := do
  let r1 ← dropLit (str "HORA:") suf
  let (t, r2) ← takeTime r1
  let (sp, _) := takeRun isJsSpace r2
  if sp = [] then none else
  some (5 + t.length + sp.length)

/-- Match length of `/DE\s+LA\s+CTA\s+CLABE\s+\d+/`. -/
def cleanLenClabe (suf : Str) : Option Nat := do
  let r1 ← dropLit (str "DE") suf
  let sp1 := runLen isJsSpace r1
  if sp1 = 0 then none else
  let r2 ← dropLit (str "LA") (r1.drop sp1)
  let sp2 := runLen isJsSpace r2
  if sp2 = 0 then none else
  let r3 ← dropLit (str "CTA") (r2.drop sp2)
  let sp3 := runLen isJsSpace r3
  if sp3 = 0 then none else
  let r4 ← dropLit (str "CLABE") (r3.drop sp3)
  let sp4 := runLen isJsSpace r4
  if sp4 = 0 then none else
  let ds := runLen isDigit (r4.drop sp4)
  if ds = 0 then none else
  some (2 + sp1 + 2 + sp2 + 3 + sp3 + 5 + sp4 + ds)

/-- Match length of the bare `RFC`-labeled pattern used in
`_cleanDescription`. -/
def cleanLenRfc (suf : Str) : Option Nat := do
  let r1 ← dropLit (str "RFC") suf
  let sp := runLen isJsSpace r1
  if sp = 0 then none else
  let (core, _) ← rfcCore (r1.drop sp)
  some (3 + sp + core.length)

/-- Match length of `/CONCEPTO\s+\S+/`. -/
def cleanLenConcepto (suf : Str) : Option Nat := do
  let r1 ← dropLit (str "CONCEPTO") suf
  let sp := runLen isJsSpace r1
  if sp = 0 then none else
  let run := runLen (fun c => !isJsSpace c) (r1.drop sp)
  if run = 0 then none else
  some (8 + sp + run)

/-- Embeds `AfirmeParser._cleanDescription`: six first-match removals, a
trim, whitespace collapsing and a final trim. -/
def cleanDescription (d : Str) : Str :=
  let d1 := removeFirst cleanLenRastreo d
  let d2 := removeFirst cleanLenReferencia d1
  let d3 := removeFirst cleanLenHora d2
  let d4 := removeFirst cleanLenClabe d3
  let d5 := removeFirst cleanLenRfc d4
  let d6 := removeFirst cleanLenConcepto d5
  trim (collapseWs (trim d6))

/-- Embeds `AfirmeParser._buildActualDescription`: the time-prefixed
beneficiary pattern first, then the already-extracted beneficiary, then the
cleaned original description. -/
def buildActualDescription (orig : Str) (extracted : Extract) : Str :=
  match matchBenef orig with
  | some cap => trim cap
  | none =>
    match extracted.beneficiary with
    | some b => b
    | none => cleanDescription orig

/-- Embeds `AfirmeParser.parseRow` (lines 65-102): rows lacking `date` or
`description` yield no transaction; `_formatDate` can throw, which the
document-level `try`/`catch` of `parse` would turn into an empty result. -/
def parseRow (record : AfirmeRecord) : Except Unit (Option Transaction) :=
  if record.date = [] || record.description = [] then .ok none
  else
    match formatDate record.date with
    | .error e => .error e
    | .ok date =>
      let debit := record.debit
      let credit := record.credit
      let balance := record.balance
      let amount := if credit ≠ 0 then credit else -debit
      let extractedData := extractFromDescription record.description
      let reference :=
        match extractedData.reference with
        | some r => r
        | none => record.reference
      let actualDescription := buildActualDescription record.description extractedData
      .ok (some (mkTransaction
        { date := date
          type := if credit ≠ 0 then creditStr else debitStr
          amount := amount
          balance := balance
          reference := reference
          accountNumber := some record.account
          description := actualDescription
          beneficiary := orNull extractedData.beneficiary
          trackingKey := orNull extractedData.trackingKey
          hour := some (extractedData.hour.getD [])
          rfc := some (extractedData.rfc.getD [])
          concept := some (extractedData.concept.getD [])
          bank := .info (str "062") (str "40062") (str "AFIRME")
          raw := some (.afirme record) }))

end AfirmeParser

/-! ## Santander parser (santander-parser.js) -/

namespace SantanderParser

/-- The literal header line whose presence starts the data section. -/
def headerLine : Str :=
  str "Fecha,Hora,Sucursal,Descripcion,Importe Cargo,Importe Abono,Saldo,Referencia,Concepto"

/-- Embeds the character scan of `_parseDataLine`: single or double quotes
toggle the quote state; outside quotes a comma ends a column (trimmed); the
final column is pushed only when nonempty. -/
def dataLineCols : Str → Str → Option Char → List Str
  | [], current, _ => if current.isEmpty then [] else [trim current]
  | ch :: rest, current, none =>
    if ch = apos || ch = dquote then dataLineCols rest current (some ch)
    else if ch = ',' then trim current :: dataLineCols rest [] none
    else dataLineCols rest (current ++ [ch]) none
  | ch :: rest, current, some qc =>
    if ch = qc then dataLineCols rest current none
    else dataLineCols rest (current ++ [ch]) (some qc)

/-- Warning text of the `console.warn` in `_parseDataLine`. -/
def colCountWarning : Str :=
  str "Unexpected number of columns in Santander line:"

/-- Embeds `SantanderParser._parseDataLine`: exactly nine columns make a
record (apostrophes are stripped from the first four); otherwise a warning
is logged and the line is dropped. -/
def parseDataLine (line : Str) : Option SantanderRecord × List Str :=
  let columns := dataLineCols line [] none
  match columns with
  | [c0, c1, c2, c3, c4, c5, c6, c7, c8] =>
    (some
      { date := c0.filter (fun c => c ≠ apos)
        time := c1.filter (fun c => c ≠ apos)
        branch := c2.filter (fun c => c ≠ apos)
        description := c3.filter (fun c => c ≠ apos)
        debit := c4
        credit := c5
        balance := c6
        reference := c7
        concept := c8 }, [])
  | _ => (none, [colCountWarning])

/-- Embeds `SantanderParser._isDataLine`: the anchored regex `/^'\d{8}',/`. -/
def isDataLine (line : Str) : Bool :=
  (do
    let r1 ← dropLit [apos] line
    let (_, r2) ← takeExact isDigit 8 r1
    let _ ← dropLit [apos, ','] r2
    some ()).isSome

/-- Date shape `\d{2}\/\d{2}\/\d{4}` of the statement-period regex. -/
def takeDateSlash (s : Str) : Option (Str × Str) := do
  let (d, r1) ← takeExact isDigit 2 s
  match r1 with
  | '/' :: r2 => do
    let (m, r3) ← takeExact isDigit 2 r2
    match r3 with
    | '/' :: r4 => do
      let (y, r5) ← takeExact isDigit 4 r4
      some (d ++ ['/'] ++ m ++ ['/'] ++ y, r5)
    | _ => none
  | _ => none

/-- Regex `/Periodo de:\s*(\d{2}\/\d{2}\/\d{4})\s*al\s*(\d{2}\/\d{2}\/\d{4})/`. -/
def matchPeriodo (line : Str) : Option (Str × Str) :=
  matchLit (str "Periodo de:")
    (fun rest => do
      let (d1, r1) ← takeDateSlash (takeSpaces0 rest)
      let r2 ← dropLit (str "al") (takeSpaces0 r1)
      let (d2, _) ← takeDateSlash (takeSpaces0 r2)
      some (d1, d2)) line

/-- Header metadata extracted by `_extractAccountInfo`. -/
structure AccountInfo where
  accountNumber : Str
  accountName : Str
  period : Str
  userName : Str
  deriving DecidableEq

/-- Embeds `SantanderParser._extractAccountInfo`: scans the first ten lines
for labeled key/value pairs, later hits overwriting earlier ones. -/
def extractAccountInfo (lines : List Str) : AccountInfo :=
  (lines.take 10).foldl
    (fun info line =>
      let info :=
        if containsSub (str "Cuenta:") line then
          { info with accountNumber := splitFieldComma (str "Cuenta:") line }
        else info
      let info :=
        if containsSub (str "Contrato:") line then
          { info with accountName := splitFieldRaw (str "Contrato:") line }
        else info
      let info :=
        if containsSub (str "Periodo de:") line then
          match matchPeriodo line with
          | some (d1, d2) => { info with period := d1 ++ str " - " ++ d2 }
          | none => info
        else info
      let info :=
        if containsSub (str "Usuario:") line then
          { info with userName := splitFieldComma (str "Usuario:") line }
        else info
      info)
    { accountNumber := [], accountName := [], period := [], userName := [] }

/-- Embeds `SantanderParser.parseRow` (lines 159-193). -/
def parseRow (record : SantanderRecord) (accountNumber : Str) : Option Transaction :=
  if record.date.isEmpty || record.description.isEmpty then none
  else
    let date := formatDate record.date
    let debit := parseCurrency record.debit
    let credit := parseCurrency record.credit
    let balance := parseCurrency record.balance
    let amount := if credit ≠ 0 then credit else -debit
    let description :=
      if !record.concept.isEmpty && !(trim record.concept).isEmpty
          && !containsSub (str "MEDICMAS REF 0000000") record.concept
          && !containsSub (str "REF 0000000") record.concept then
        trim record.concept
      else trim record.description
    some (mkTransaction
      { date := date
        time := if record.time.isEmpty then none else some record.time
        type := if credit ≠ 0 then creditStr else debitStr
        amount := amount
        balance := balance
        reference := record.reference
        accountNumber := some accountNumber
        description := description
        bank := .info (str "014") (str "40014") (str "SANTANDER")
        raw := some (.santander record) })

/-- Data-section loop of `SantanderParser.parse` once `inDataSection` is
true: a further header line is skipped, an empty or non-data line breaks,
and every other line goes through `_parseDataLine`. -/
def collectData : List Str → List SantanderRecord × List Str
  | [] => ([], [])
  | l :: ls =>
    if startsWithStr headerLine l then collectData ls
    else if l.isEmpty || !isDataLine l then ([], [])
    else
      match parseDataLine l with
      | (some r, w) =>
        let (rs, ws) := collectData ls
        (r :: rs, w ++ ws)
      | (none, w) =>
        let (rs, ws) := collectData ls
        (rs, w ++ ws)

/-- Pre-header phase of the `SantanderParser.parse` loop: scan for the
header line; without it no record is ever collected. -/
def scanForHeader : List Str → List SantanderRecord × List Str
  | [] => ([], [])
  | l :: ls =>
    if startsWithStr headerLine l then collectData ls else scanForHeader ls

/-- Embeds `SantanderParser.parse` (lines 11-47): trims every line, extracts
header metadata, collects the data section and assembles transactions.
Nothing inside can throw, so the `catch` branch is dead; the returned list
of strings holds the console output (only `_parseDataLine` warnings). -/
def parse (content : Str) : List Transaction × List Str :=
  let lines := (splitLines content).map trim
  let accountInfo := extractAccountInfo lines
  let accountNumber := accountInfo.accountNumber
  let (records, warns) := scanForHeader lines
  (records.filterMap (fun r => parseRow r accountNumber), warns)

end SantanderParser

/-! ## Banorte parser, second revision (banorte-parser.js, lines 94-405) -/

namespace BanorteParserV2

/-- Result object of `_extractFromDetailedDescription`. -/
structure Extract where
  beneficiary : Option Str
  trackingKey : Option Str
  time : Option Str
  rfc : Option Str
  concept : Option Str
  actualDescription : Option Str
  rawDescription : Str
  deriving DecidableEq

/-- Capture of `\s*([^,]+),` (or `\s+` when `minSp = 1`) after a literal:
the greedy space run backs off just enough to leave a nonempty non-comma
capture before the next comma. -/
def capBeforeComma (minSp : Nat) (rest : Str) : Option Str :=
  let sp := runLen isJsSpace rest
  let pre := takeUntilChar ',' rest
  if pre.length = rest.length then none
  else
    let c := pre.length
    if c = 0 then none
    else
      let j := min sp (c - 1)
      if j < minSp then none
      else some (jsSubstring j c rest)

/-- Regex `/DEL CLIENTE\s+([^,]+),/`. -/
def matchDelCliente (d : Str) : Option Str :=
  matchLit (str "DEL CLIENTE") (capBeforeComma 1) d

/-- Regex `/CVE RAST:\s*([^,\s]+)/`. -/
def matchCveRast (d : Str) : Option Str :=
  matchLit (str "CVE RAST:")
    (fun rest =>
      let (cap, _) := takeRun (fun c => !(c = ',' || isJsSpace c)) (takeSpaces0 rest)
      if cap.isEmpty then none else some cap) d

/-- Regex `/HR LIQ:\s*(\d{2}:\d{2}:\d{2})/`. -/
def matchHrLiq (d : Str) : Option Str :=
  matchLit (str "HR LIQ:") (fun rest => (takeTime (takeSpaces0 rest)).map Prod.fst) d

/-- RFC core with a required trailing check, honoring the greedy `{3,4}`
letter count (four first, three on backtracking). -/
def rfcCoreWith (post : Str → Bool) (s : Str) : Option Str :=
  (match rfcCoreK 4 s with
   | some (m, r) => if post r then some m else none
   | none => none).orElse
    (fun _ =>
      match rfcCoreK 3 s with
      | some (m, r) => if post r then some m else none
      | none => none)

/-- Regex `/RFC\s+([A-Z&Ñ]{3,4}...[0-9A]),/` of `_extractSpeiReceived`. -/
def matchRfcReceived (d : Str) : Option Str :=
  matchLit (str "RFC")
    (fun rest => do
      let r1 ← takeSpaces1 rest
      rfcCoreWith (fun r => r.head? = some ',') r1) d

/-- Regex `/CONCEPTO:\s*([^,]+),/`. -/
def matchConceptoRec (d : Str) : Option Str :=
  matchLit (str "CONCEPTO:") (capBeforeComma 0) d

/-- Embeds `BanorteParserV2._extractSpeiReceived` (lines 263-307). -/
def extractSpeiReceived (d : Str) : Extract :=
  let beneficiary := (matchDelCliente d).map trim
  let trackingKey := (matchCveRast d).map trim
  let time := matchHrLiq d
  let rfc := (matchRfcReceived d).map trim
  let concept := (matchConceptoRec d).map trim
  let parts := concept.toList ++ beneficiary.toList
  let actual :=
    if parts.isEmpty then str "SPEI Recibido"
    else str "SPEI Recibido: " ++ (List.intercalate (str " - ") parts)
  { beneficiary := beneficiary
    trackingKey := trackingKey
    time := time
    rfc := rfc
    concept := concept
    actualDescription := some actual
    rawDescription := d }

/-- Regex `/BENEF:([^,\(]+)/`. -/
def matchBenefSent (d : Str) : Option Str :=
  matchLit (str "BENEF:")
    (fun rest =>
      let (cap, _) := takeRun (fun c => !(c = ',' || c = '(')) rest
      if cap.isEmpty then none else some cap) d

/-- Regex `/CVE RASTREO:\s*([^,\s]+)/`. -/
def matchCveRastreoSent (d : Str) : Option Str :=
  matchLit (str "CVE RASTREO:")
    (fun rest =>
      let (cap, _) := takeRun (fun c => !(c = ',' || isJsSpace c)) (takeSpaces0 rest)
      if cap.isEmpty then none else some cap) d

/-- Regex `/HORA LIQ:\s*(\d{2}:\d{2}:\d{2})/`. -/
def matchHoraLiq (d : Str) : Option Str :=
  matchLit (str "HORA LIQ:") (fun rest => (takeTime (takeSpaces0 rest)).map Prod.fst) d

/-- Regex `/RFC:\s*([A-Z&Ñ]{3,4}...[0-9A]),/` of `_extractSpeiSent`. -/
def matchRfcSent (d : Str) : Option Str :=
  matchLit (str "RFC:")
    (fun rest => rfcCoreWith (fun r => r.head? = some ',') (takeSpaces0 rest)) d

/-- Regex `/TRANSFERENCIA,?\s*([^,]+)?/: the match succeeds at the first
occurrence of the literal; the capture group is the maximal non-comma run
after an optional comma and spaces, possibly absent. -/
def matchTransferencia (d : Str) : Option (Option Str) :=
  matchLit (str "TRANSFERENCIA")
    (fun rest =>
      let r1 := match rest with | ',' :: t => t | _ => rest
      let (cap, _) := takeRun (fun c => c ≠ ',') (takeSpaces0 r1)
      some (if cap.isEmpty then none else some cap)) d

/-- Embeds `BanorteParserV2._extractSpeiSent` (lines 315-361). -/
def extractSpeiSent (d : Str) : Extract :=
  let beneficiary := (matchBenefSent d).map trim
  let trackingKey := (matchCveRastreoSent d).map trim
  let time := matchHoraLiq d
  let rfc := (matchRfcSent d).map trim
  let concept :=
    match matchTransferencia d with
    | some (some cap) => some (trim cap)
    | _ => some (str "Transferencia")
  let parts := concept.toList ++ beneficiary.toList
  let actual :=
    if parts.isEmpty then str "SPEI Enviado"
    else str "SPEI Enviado: " ++ (List.intercalate (str " - ") parts)
  { beneficiary := beneficiary
    trackingKey := trackingKey
    time := time
    rfc := rfc
    concept := concept
    actualDescription := some actual
    rawDescription := d }

/-- Regex `/RASTREO\s*:,\s*([^,\s]+)/` of `_extractCompensation`. -/
def matchRastreoComp (d : Str) : Option Str :=
  matchLit (str "RASTREO")
    (fun rest =>
      match takeSpaces0 rest with
      | ':' :: ',' :: r2 =>
        let (cap, _) := takeRun (fun c => !(c = ',' || isJsSpace c)) (takeSpaces0 r2)
        if cap.isEmpty then none else some cap
      | _ => none) d

/-- Embeds `BanorteParserV2._extractCompensation` (lines 369-381). -/
def extractCompensation (d : Str) : Extract :=
  { beneficiary := none
    trackingKey := (matchRastreoComp d).map trim
    time := none
    rfc := none
    concept := none
    actualDescription := some (str "Compensación SPEI")
    rawDescription := d }

/-- Embeds `BanorteParserV2._extractFromDetailedDescription` (lines
207-255): dispatch on marker substrings, defaulting to the all-absent
result; nothing inside can throw. -/
def extractFromDetailedDescription (d : Str) : Extract :=
  let base : Extract :=
    { beneficiary := none, trackingKey := none, time := none, rfc := none
      concept := none, actualDescription := none, rawDescription := d }
  if d.isEmpty then base
  else if containsSub (str "SPEI RECIBIDO") d then extractSpeiReceived d
  else if containsSub (str "COMPRA ORDEN DE PAGO SPEI") d
      || containsSub (str "BEM SPEI") d then extractSpeiSent d
  else if containsSub (str "COMPENSACION DESFASE SPEI") d then extractCompensation d
  else base

/-- Embeds the second `BanorteParser.parseRow` (lines 166-199). -/
def parseRow (record : BanorteV2Record) : Except Unit (Option Transaction) :=
  if record.date.isEmpty || record.description.isEmpty then .ok none
  else
    match formatDate record.date with
    | .error e => .error e
    | .ok date =>
      let deposits := parseCurrency record.deposits
      let withdrawals := parseCurrency record.withdrawals
      let balance := parseCurrency record.balance
      let amount := if deposits ≠ 0 then deposits else -withdrawals
      let extractedData := extractFromDetailedDescription record.detailedDescription
      .ok (some (mkTransaction
        { date := date
          type := if deposits ≠ 0 then creditStr else debitStr
          amount := amount
          balance := balance
          reference := record.reference
          accountNumber := some record.account
          description := extractedData.actualDescription.getD (trim record.description)
          beneficiary := extractedData.beneficiary
          trackingKey := extractedData.trackingKey
          time := extractedData.time
          rfc := extractedData.rfc
          concept := extractedData.concept
          bank := .info (str "072") (str "40072") (str "BANORTE")
          raw := some (.banorte2 record) }))

end BanorteParserV2

/-! ## Banorte parser, first revision (banorte-parser.js, lines 4-91) -/

namespace BanorteParserV1

/-- Embeds the first `BanorteParser.parseRecord` (lines 38-68): the guard
requires only `account` and `date` to be non-empty; `description` is not
checked.  The `account` argument is passed under the key `account`, which
the `Transaction` constructor does not accept. -/
def parseRecord (record : BanorteV1Record) : Except Unit (Option Transaction) :=
  if record.account.isEmpty || record.date.isEmpty then .ok none
  else
    match formatDate record.date with
    | .error e => .error e
    | .ok date =>
      let deposits := parseMoney record.deposits
      let withdrawals := parseMoney record.withdrawals
      let balance := parseMoney record.balance
      let amount := if deposits ≠ 0 then deposits else -withdrawals
      .ok (some (mkTransaction
        { date := date
          type := if deposits ≠ 0 then creditStr else debitStr
          amount := amount
          balance := balance
          reference := record.reference
          account := some record.account
          description := record.description
          bank := .plain (str "Banorte")
          raw := some (.banorte1 record) }))

end BanorteParserV1

/-! ## Scotiabank parser (scotiabank-parser.js) -/

/-- Lazy one-or-more class run: the smallest `k ≥ 1` such that the first
`k` characters satisfy `cls` and `term` holds on the remainder; this is the
deterministic reading of a lazy `cls+?` followed by a required context.
The counter argument starts at 0. -/
def lazyRun1 (cls : Char → Bool) (term : Str → Bool) : Str → Nat → Option Nat
  | s, k =>
    if 1 ≤ k && term s then some k
    else
      match s with
      | [] => none
      | c :: t => if cls c then lazyRun1 cls term t (k + 1) else none

namespace ScotiabankParser

/-- Beneficiary/tracking/time triple produced by the SPEI extractors. -/
structure SpeiInfo where
  beneficiary : Option Str
  trackingKey : Option Str
  time : Option Str
  deriving DecidableEq

/-- Tracking pattern `(MBAN\d{20})` (and `BNET` variant): a literal tag
followed by exactly twenty digits. -/
def tryTag20 (tag : Str) (suf : Str) : Option Str := do
  let r1 ← dropLit tag suf
  let (ds, _) ← takeExact isDigit 20 r1
  some (tag ++ ds)

/-- Tracking pattern `(8846APR[12]\d{17})` (and `7875APR` variant). -/
def tryApr (tag : Str) (suf : Str) : Option Str := do
  let r1 ← dropLit tag suf
  match r1 with
  | c :: r2 =>
    if c = '1' || c = '2' then do
      let (ds, _) ← takeExact isDigit 17 r2
      some (tag ++ [c] ++ ds)
    else none
  | [] => none

/-- Tracking pattern `(241\d{12}\d+)`: the literal digits `241` followed by
a greedy digit run of at least thirteen. -/
def try241 (suf : Str) : Option Str := do
  let r1 ← dropLit (str "241") suf
  let (run, _) := takeRun isDigit r1
  if run.length ≥ 13 then some (str "241" ++ run) else none

/-- Tracking pattern `(\d{20,30})`: a greedy digit window of twenty to
thirty characters. -/
def tryDigits2030 (suf : Str) : Option Str :=
  let (run, _) := takeRun isDigit suf
  if run.length ≥ 20 then some (run.take 30) else none

/-- The `trackingPatterns` priority list of `_extractSpeiReceived`: each
regex is searched over the whole line, the first one to match wins. -/
def findTracking (fullLine : Str) : Option Str :=
  (scanFirst (tryTag20 (str "MBAN")) fullLine).orElse fun _ =>
  (scanFirst (tryTag20 (str "BNET")) fullLine).orElse fun _ =>
  (scanFirst (tryApr (str "8846APR")) fullLine).orElse fun _ =>
  (scanFirst (tryApr (str "7875APR")) fullLine).orElse fun _ =>
  (scanFirst try241 fullLine).orElse fun _ =>
  scanFirst tryDigits2030 fullLine

/-- Character class `[A-Z\s\.\(\)\&]` of the beneficiary patterns. -/
def isBenefChar (c : Char) : Bool :=
  isUpper c || isJsSpace c || c = '.' || c = '(' || c = ')' || c = '&'

/-- First alternative `[A-Z][A-Z\s\.\(\)\&]+?SA DE CV` of the beneficiary
regex in `_extractSpeiReceived`. -/
def tryBenefA (suf : Str) : Option Str :=
  match suf with
  | c :: t =>
    if isUpper c then
      (lazyRun1 isBenefChar (fun r => startsWithStr (str "SA DE CV") r) t 0).map
        (fun k => suf.take (1 + k + 8))
    else none
  | [] => none

/-- Second alternative `[A-Z][A-Z\s\.\(\)\&]+?(?=\/|\d|$)`. -/
def tryBenefB (suf : Str) : Option Str :=
  match suf with
  | c :: t =>
    if isUpper c then
      (lazyRun1 isBenefChar
        (fun r =>
          match r with
          | [] => true
          | d :: _ => d = '/' || isDigit d) t 0).map
        (fun k => suf.take (1 + k))
    else none
  | [] => none

/-- Fallback beneficiary regex
`/\/([A-Z][A-Z\s\.\(\)\&]+?)\s*(?:\/|\d{10,20}|$)/`: capture after a slash,
terminated (after optional spaces) by a slash, a run of at least ten
digits, or the end of the line. -/
def tryBenefFallback (suf : Str) : Option Str :=
  match suf with
  | '/' :: c :: t =>
    if isUpper c then
      (lazyRun1 isBenefChar
        (fun r =>
          let r2 := r.dropWhile isJsSpace
          match r2 with
          | [] => true
          | d :: _ => d = '/' || runLen isDigit r2 ≥ 10) t 0).map
        (fun k => (c :: t).take (1 + k))
    else none
  | _ => none

/-- Embeds `ScotiabankParser._extractSpeiReceived` (lines 124-169). -/
def extractSpeiReceived (fullLine : Str) : SpeiInfo :=
  let time := findTime fullLine
  let trackingKey := findTracking fullLine
  let beneficiary0 :=
    if fullLine.length ≥ 250 then
      (scanFirst
          (fun suf => (tryBenefA suf).orElse (fun _ => tryBenefB suf))
          (jsSubstringFrom 200 fullLine)).map trim
    else none
  let beneficiary :=
    match beneficiary0 with
    | some b => some b
    | none => (scanFirst tryBenefFallback fullLine).map trim
  { beneficiary := beneficiary, trackingKey := trackingKey, time := time }

/-- Class `[A-Z\s]` of the sent-beneficiary regex. -/
def isUpperSpace (c : Char) : Bool :=
  isUpper c || isJsSpace c

/-- Trailing group `(?:\d+\s+\d{2}:\d{2}:\d{2}|Fecha)` of the
sent-beneficiary regex. -/
def sentGroupTail (r : Str) : Bool :=
  (do
    let (ds, r1) := takeRun isDigit r
    if ds.isEmpty then none else
    let r2 ← takeSpaces1 r1
    let _ ← takeTime r2
    some ()).isSome
  || startsWithStr (str "Fecha") r

/-- Terminator `\s+(?:...)` before the trailing group: the greedy space run
must be nonempty and the group must match right after it. -/
def sentBenefTerm (r : Str) : Bool :=
  let sp := runLen isJsSpace r
  sp ≥ 1 && sentGroupTail (r.drop sp)

/-- Embeds the sent-beneficiary regex
`/SEL TRANSF\. INTERBANCARIA SPEI\s+[A-Z\s]+\s+([A-Z][A-Z\s]+?)\s+(?:\d+\s+\d{2}:\d{2}:\d{2}|Fecha)/`:
greedy quantifiers enumerate their candidate lengths longest-first, the
lazy capture shortest-first. -/
def matchSentBenef (fullLine : Str) : Option Str :=
  matchLit (str "SEL TRANSF. INTERBANCARIA SPEI")
    (fun rest =>
      (descRange (runLen isJsSpace rest)).findSome? fun a =>
        let r1 := rest.drop a
        (descRange (runLen isUpperSpace r1)).findSome? fun b =>
          let r2 := r1.drop b
          (descRange (runLen isJsSpace r2)).findSome? fun c =>
            let r3 := r2.drop c
            match r3 with
            | u :: t =>
              if isUpper u then
                (lazyRun1 isUpperSpace sentBenefTerm t 0).map (fun d => u :: t.take d)
              else none
            | [] => none)
    fullLine

/-- Embeds the sent-tracking regex
`/\d{8}\s+(\d{8})\s+\d{2}:\d{2}:\d{2}\d{8}[A-Z0-9]+\d+/`. -/
def trySentTracking (suf : Str) : Option Str := do
  let (_, r1) ← takeExact isDigit 8 suf
  let r2 ← takeSpaces1 r1
  let (cap, r3) ← takeExact isDigit 8 r2
  let r4 ← takeSpaces1 r3
  let (_, r5) ← takeTime r4
  let (_, r6) ← takeExact isDigit 8 r5
  let (run, _) := takeRun isUpperDigit r6
  if run.length ≥ 2 && (run.drop 1).any isDigit then some cap else none

/-- Embeds `ScotiabankParser._extractSpeiSent` (lines 174-197). -/
def extractSpeiSent (fullLine : Str) : SpeiInfo :=
  { beneficiary := (matchSentBenef fullLine).map trim
    trackingKey := scanFirst trySentTracking fullLine
    time := findTime fullLine }

/-- Embeds `ScotiabankParser._parseDescription` (lines 83-119): the trimmed
fixed-offset description is both the concept and the display description;
SPEI lines additionally run the credit or debit extractor over the full
line.  Nothing inside can throw, so the `catch` is dead. -/
def parseDescription (description fullLine : Str) (type : Str) : ScotiaDescInfo :=
  let concept := trim description
  let sub : SpeiInfo :=
    if containsSub (str "TRANSF. INTERBANCARIA SPEI") fullLine
        || containsSub (str "TRANSF INTERBANCARIA SPEI") fullLine then
      if type = creditStr then extractSpeiReceived fullLine
      else extractSpeiSent fullLine
    else { beneficiary := none, trackingKey := none, time := none }
  { description := trim description
    actualDescription := concept
    beneficiary := sub.beneficiary
    trackingKey := sub.trackingKey
    time := sub.time
    concept := some concept
    rawDescription := description }

/-- Embeds `ScotiabankParser._looksLikeTransaction`. -/
def looksLikeTransaction (line : Str) : Bool :=
  startsWithStr (str "CHQMXN") line

/-- Embeds `ScotiabankParser.parseRow` (lines 27-73): fixed-offset segments;
only the `CHQMXN` record tag is required; the operation-type field decides
credit versus debit; nothing inside can throw, so the `catch` is dead. -/
def parseRow (line : Str) : Option Transaction :=
  let segments : ScotiaSegments :=
    { recordType := jsSubstring 0 6 line
      accountNumber := jsSubstring 6 26 line
      date := jsSubstring 26 36 line
      reference := jsSubstring 36 46 line
      amount := jsSubstring 46 63 line
      operationType := jsSubstring 63 68 line
      balance := jsSubstring 68 85 line
      description := jsSubstring 135 165 line
      extra := jsSubstringFrom 85 line }
  if segments.recordType ≠ str "CHQMXN" then none
  else
    let date := formatDate segments.date
    let amount := parseNumber segments.amount
    let balance := parseNumber segments.balance
    let type :=
      if containsSub (str "abono") (toLowerStr segments.operationType) then creditStr
      else debitStr
    let descriptionInfo := parseDescription segments.description line type
    let acct := (trim segments.accountNumber).dropWhile (fun c => c = '0')
    some (mkTransaction
      { date := date
        type := type
        amount := if type = creditStr then amount else -amount
        balance := balance
        reference := trim segments.reference
        accountNumber := if acct.isEmpty then none else some acct
        description := descriptionInfo.actualDescription
        beneficiary := descriptionInfo.beneficiary
        trackingKey := descriptionInfo.trackingKey
        time := descriptionInfo.time
        concept := descriptionInfo.concept
        bank := .info (str "044") (str "40044") (str "SCOTIABANK")
        raw := some (.scotiabank segments descriptionInfo) })

/-- Embeds `ScotiabankParser.parse` (lines 10-19): trimmed nonempty lines
starting with the `CHQMXN` tag, each through `parseRow`. -/
def parse (content : Str) : List Transaction :=
  (((splitLines content).map trim).filter
    (fun line => !line.isEmpty && looksLikeTransaction line)).filterMap parseRow

end ScotiabankParser

/-! ## BanBajio parser (banbajio-parser.js) -/

/-- Scan a bounded prefix of lines for a literal header and return the
lines after it; `none` when the header is absent.  Shared shape of the
BanBajio and Banregio tokenizers. -/
def dropAfterHeader (hdr : Str) : List Str → Option (List Str)
  | [] => none
  | l :: ls => if startsWithStr hdr l then some ls else dropAfterHeader hdr ls

/-- Falsy test on a possibly missing string field (`undefined` or `''`). -/
def strFalsy (o : Option Str) : Bool :=
  match o with
  | none => true
  | some s => s.isEmpty

/-- Comma-splitting with double-quote quoting and `""` escapes; models the
record splitter of `csv-parse/sync` for the configurations used here
(delimiter `,`, default quote, one record per line). -/
def csvGo : Str → Str → Bool → List Str
  | [], cur, _ => [cur]
  | c :: t, cur, false =>
    if c = dquote then csvGo t cur true
    else if c = ',' then cur :: csvGo t [] false
    else csvGo t (cur ++ [c]) false
  | c :: d :: t2, cur, true =>
    if c = dquote then
      if d = dquote then csvGo t2 (cur ++ [dquote]) true
      else csvGo (d :: t2) cur false
    else csvGo (d :: t2) (cur ++ [c]) true
  | [c], cur, true =>
    if c = dquote then csvGo [] cur false else csvGo [] (cur ++ [c]) true
  termination_by s _ _ => s.length

/-- Fields of one csv line, each trimmed (`trim: true`). -/
def csvFieldSplit (line : Str) : List Str :=
  (csvGo line [] false).map trim

namespace BanBajioParser

/-- The literal header line of the BanBajio export. -/
def headerLine : Str :=
  str "#,Fecha Movimiento,Hora,Recibo,Descripción,Cargos,Abonos,Saldo"

/-- Diagnostic logged when the header is absent. -/
def missingHeaderError : Str :=
  str "Could not find transaction data in BanBajio file"

/-- Result object of `BanBajioParser._extractFromDescription`. -/
structure Extract where
  trackingKey : Option Str
  reference : Option Str
  time : Option Str
  beneficiary : Option Str
  rfc : Option Str
  concept : Option Str
  counterpartInstitution : Option Str
  actualDescription : Str
  rawDescription : Str
  deriving DecidableEq

/-- Capture of `\s*([^|]+)` after a literal: the greedy space run backs off
one character when everything after it up to the next pipe is blank, which
makes the capture a single space. -/
def capPipe (rest : Str) : Option Str :=
  let sp := runLen isJsSpace rest
  let r2 := rest.drop sp
  match r2 with
  | c :: _ => if c = '|' then (if sp ≥ 1 then some [' '] else none)
              else some (takeUntilChar '|' r2)
  | [] => if sp ≥ 1 then some [' '] else none

/-- Regex `/Clave de Rastreo:\s*(\S+)/`. -/
def matchClaveRastreo (d : Str) : Option Str :=
  matchLit (str "Clave de Rastreo:")
    (fun rest =>
      let (cap, _) := takeRun (fun c => !isJsSpace c) (takeSpaces0 rest)
      if cap.isEmpty then none else some cap) d

/-- Regex `/Referencia:\s*([^|]+)/`. -/
def matchReferenciaPipe (d : Str) : Option Str :=
  matchLit (str "Referencia:") capPipe d

/-- Regex `/Hora:\s*(\d{2}:\d{2}:\d{2})/`. -/
def matchHoraBB (d : Str) : Option Str :=
  matchLit (str "Hora:") (fun rest => (takeTime (takeSpaces0 rest)).map Prod.fst) d

/-- Regex `/RFC Ordenante:\s*([A-Z&Ñ]{3,4}...[0-9A])/`. -/
def matchRfcOrdenante (d : Str) : Option Str :=
  matchLit (str "RFC Ordenante:")
    (fun rest => (rfcCore (takeSpaces0 rest)).map Prod.fst) d

/-- Regex `/Concepto del Pago:\s*([^|]+)/`. -/
def matchConceptoPago (d : Str) : Option Str :=
  matchLit (str "Concepto del Pago:") capPipe d

/-- Candidate lengths for a greedy `\s*`: longest first, down to zero. -/
def desc0Range (n : Nat) : List Nat :=
  descRange n ++ [0]

/-- Terminator `\s+lit` (one or more spaces then a literal). -/
def spacesThenLit (lit : Str) (r : Str) : Bool :=
  let sp := runLen isJsSpace r
  sp ≥ 1 && startsWithStr lit (r.drop sp)

/-- Regex `/Ordenante:\s*([^|]+?)\s+Cuenta Ordenante:/`: greedy `\s*`
longest-first, lazy non-pipe capture shortest-first, then mandatory spaces
and the second literal. -/
def matchOrdenante (d : Str) : Option Str :=
  matchLit (str "Ordenante:")
    (fun rest =>
      (desc0Range (runLen isJsSpace rest)).findSome? fun sp =>
        (lazyRun1 (fun c => c ≠ '|') (spacesThenLit (str "Cuenta Ordenante:")) (rest.drop sp) 0).map
          (fun k => (rest.drop sp).take k)) d

/-- Regex `/Institucion contraparte:\s*([^|]+?)\s+Ordenante:/`. -/
def matchInstitucion (d : Str) : Option Str :=
  matchLit (str "Institucion contraparte:")
    (fun rest =>
      (desc0Range (runLen isJsSpace rest)).findSome? fun sp =>
        (lazyRun1 (fun c => c ≠ '|') (spacesThenLit (str "Ordenante:")) (rest.drop sp) 0).map
          (fun k => (rest.drop sp).take k)) d

/-- Regex `/Descripción:\s*([^|]+)/` of `_buildActualDescription`. -/
def matchDescripcion (d : Str) : Option Str :=
  matchLit (str "Descripción:") capPipe d

/-- Regex `/Recibo #\s*(\d+)/` of the legacy `_extractReference`. -/
def matchRecibo (d : Str) : Option Str :=
  matchLit (str "Recibo #")
    (fun rest =>
      let (cap, _) := takeRun isDigit (takeSpaces0 rest)
      if cap.isEmpty then none else some cap) d

/-- Embeds `BanBajioParser._buildActualDescription` (lines 209-229). -/
def buildActualDescription (orig : Str) (counterpartInstitution beneficiary : Option Str) : Str :=
  if containsSub (str "SPEI Recibido:") orig then
    let parts := counterpartInstitution.toList ++ beneficiary.toList
    if !parts.isEmpty then List.intercalate (str " - ") parts
    else
      match matchDescripcion orig with
      | some cap => trim cap
      | none => trim orig
  else
    match matchDescripcion orig with
    | some cap => trim cap
    | none => trim orig

/-- Embeds `BanBajioParser._extractFromDescription` (lines 141-200):
labeled regex probes plus the composite display description; nothing can
throw, so the `catch` is dead. -/
def extractFromDescription (d : Str) : Extract :=
  let trackingKey := (matchClaveRastreo d).map trim
  let reference := (matchReferenciaPipe d).map trim
  let time := (matchHoraBB d).map trim
  let rfc := (matchRfcOrdenante d).map trim
  let concept := (matchConceptoPago d).map trim
  let beneficiary := (matchOrdenante d).map trim
  let counterpartInstitution := (matchInstitucion d).map trim
  { trackingKey := trackingKey
    reference := reference
    time := time
    beneficiary := beneficiary
    rfc := rfc
    concept := concept
    counterpartInstitution := counterpartInstitution
    actualDescription := buildActualDescription d counterpartInstitution beneficiary
    rawDescription := d }

/-- Embeds the legacy `BanBajioParser._extractReference` (lines 237-254). -/
def extractReference (d : Str) : Str :=
  match matchReferenciaPipe d with
  | some cap => trim cap
  | none =>
    match matchClaveRastreo d with
    | some cap => trim cap
    | none =>
      match matchRecibo d with
      | some cap => trim cap
      | none => []

/-- Header metadata of `BanBajioParser._extractAccountInfo`. -/
structure AccountInfo where
  accountName : Str
  accountNumber : Str
  deriving DecidableEq

/-- Embeds `BanBajioParser._extractAccountInfo` (lines 71-87). -/
def extractAccountInfo (firstLine : Str) : AccountInfo :=
  if firstLine.isEmpty then { accountName := [], accountNumber := [] }
  else
    match splitOnChar ',' firstLine with
    | p0 :: p1 :: _ => { accountName := trim p0, accountNumber := trim p1 }
    | _ => { accountName := [], accountNumber := [] }

/-- Embeds `BanBajioParser.parseRow` (lines 96-133). -/
def parseRow (record : BanBajioRecord) (accountNumber : Str) : Option Transaction :=
  if strFalsy record.date || strFalsy record.description then none
  else
    let d := record.date.getD []
    let desc := record.description.getD []
    let date := formatDate d
    let debit := record.debit.getD 0
    let credit := record.credit.getD 0
    let balance := record.balance.getD 0
    let amount := if credit ≠ 0 then credit else -debit
    let extractedData := extractFromDescription desc
    let reference :=
      orStr (extractedData.reference.getD []) (extractReference desc)
    let time :=
      match extractedData.time with
      | some t => some t
      | none =>
        match record.time with
        | some t => if t.isEmpty then none else some t
        | none => none
    some (mkTransaction
      { date := date
        time := time
        type := if credit ≠ 0 then creditStr else debitStr
        amount := amount
        balance := balance
        reference := reference
        accountNumber := some accountNumber
        description := orStr extractedData.actualDescription (trim desc)
        beneficiary := orNull extractedData.beneficiary
        trackingKey := orNull extractedData.trackingKey
        rfc := orNull extractedData.rfc
        concept := orNull extractedData.concept
        bank := .info (str "030") (str "40030") (str "BAJIO")
        raw := some (.banbajio record) })

/-- One BanBajio record from trimmed csv fields (fixed column list with
`relax_column_count`: missing columns stay absent). -/
def recordOfFields (fs : List Str) : BanBajioRecord :=
  { sequence := jsParseIntOr0 ((fs.get? 0).getD [])
    date := fs.get? 1
    time := fs.get? 2
    receipt := fs.get? 3
    description := fs.get? 4
    debit := (fs.get? 5).map parseNumber
    credit := (fs.get? 6).map parseNumber
    balance := (fs.get? 7).map parseNumber }

/-- Embeds `BanBajioParser.parse` (lines 11-63): header-marker scan, data
line filter (`parseInt` on the first comma field), csv splitting, per-row
assembly.  An absent header logs a diagnostic and yields no transactions;
nothing else can throw, so the surrounding `catch` is dead. -/
def parse (content : Str) : List Transaction × List Str :=
  let lines := (splitLines content).map trim
  let accountInfo := extractAccountInfo ((lines.head?).getD [])
  let accountNumber := accountInfo.accountNumber
  match dropAfterHeader headerLine lines with
  | none => ([], [missingHeaderError])
  | some rest =>
    let transactionLines := rest.filter
      (fun line =>
        !line.isEmpty && containsSub [','] line
          && jsParseIntValid (((splitOnChar ',' line).head?).getD []))
    let records := transactionLines.map (fun l => recordOfFields (csvFieldSplit l))
    (records.filterMap (fun r => parseRow r accountNumber), [])

end BanBajioParser

/-! ## Banregio parser, first revision (unnamed/part_003, lines 4-163) -/

/-- Models `records.map(f).filter(Boolean)` when `f` can throw: the first
exception aborts the whole mapping (caught by the caller's `try`). -/
def exceptFilterMap (f : α → Except Unit (Option β)) : List α → Except Unit (List β)
  | [] => .ok []
  | a :: t =>
    match f a with
    | .error e => .error e
    | .ok none => exceptFilterMap f t
    | .ok (some b) => (exceptFilterMap f t).map (fun bs => b :: bs)

namespace BanregioParserV1

/-- The literal header line of the Banregio export. -/
def headerLine : Str :=
  str "Fecha,Descripción,Referencia,Cargo,Abonos,Saldo,Clasificación"

/-- Diagnostic logged when the header is absent. -/
def missingHeaderError : Str :=
  str "Could not find transaction data in Banregio file"

/-- Diagnostic logged by the `catch` of `parse`. -/
def parseError : Str :=
  str "Error parsing Banregio file:"

/-- Header metadata of `BanregioParserV1._extractAccountInfo`. -/
structure AccountInfo where
  accountNumber : Str
  clabe : Str
  accountName : Str
  rfc : Str
  address : Str
  period : Str
  deriving DecidableEq

/-- Regex `/Fecha inicio:\s*(\d{2}\/\d{2}\/\d{4}).*Fecha fin:\s*(\d{2}\/\d{2}\/\d{4})/`:
after the first date the greedy `.*` backtracks to the last position where
`Fecha fin:` with a date matches. -/
def matchPeriodoBanregio (line : Str) : Option (Str × Str) :=
  matchLit (str "Fecha inicio:")
    (fun rest => do
      let (d1, r1) ← SantanderParser.takeDateSlash (takeSpaces0 rest)
      let d2 ← scanLast
        (fun suf => do
          let r2 ← dropLit (str "Fecha fin:") suf
          let (d2, _) ← SantanderParser.takeDateSlash (takeSpaces0 r2)
          some d2) r1
      some (d1, d2)) line

/-- Embeds `BanregioParserV1._extractAccountInfo` (lines 69-104): scans the
first fifteen lines; line index 3 doubles as the account-name line. -/
def extractAccountInfo (lines : List Str) : AccountInfo :=
  ((lines.take 15).enum).foldl
    (fun info (p : Nat × Str) =>
      let i := p.1
      let line := p.2
      let info :=
        if containsSub (str "CUENTA:") line then
          { info with accountNumber := splitFieldComma (str "CUENTA:") line }
        else info
      let info :=
        if containsSub (str "CLABE:") line then
          { info with clabe := splitFieldComma (str "CLABE:") line }
        else info
      let info :=
        if containsSub (str "RFC:") line then
          { info with rfc := splitFieldComma (str "RFC:") line }
        else info
      let info :=
        if containsSub (str "Fecha inicio:") line && containsSub (str "Fecha fin:") line then
          match matchPeriodoBanregio line with
          | some (d1, d2) => { info with period := d1 ++ str " - " ++ d2 }
          | none => info
        else info
      let info :=
        if i = 3 && !containsSub (str ",,,,,") line then
          { info with accountName := trim (line.filter (fun c => c ≠ ',')) }
        else info
      info)
    { accountNumber := [], clabe := [], accountName := [], rfc := [], address := [], period := [] }

/-- Embeds the first `BanregioParser.parseRow` (lines 113-139). -/
def parseRow (record : BanregioV1Record) (accountNumber : Option Str) :
    Except Unit (Option Transaction) :=
  if strFalsy record.date || strFalsy record.description then .ok none
  else
    match formatDate (record.date.getD []) with
    | .error e => .error e
    | .ok date =>
      let debit := record.debit.getD 0
      let credit := record.credit.getD 0
      let balance := record.balance.getD 0
      let amount := if credit ≠ 0 then credit else -debit
      .ok (some (mkTransaction
        { date := date
          type := if credit ≠ 0 then creditStr else debitStr
          amount := amount
          balance := balance
          reference := (record.reference.getD [])
          accountNumber := accountNumber
          description := trim (record.description.getD [])
          bank := .info (str "058") (str "40058") (str "BANREGIO")
          raw := some (.banregio1 record) }))

/-- One Banregio record from trimmed csv fields (fixed column list with
`relax_column_count`). -/
def recordOfFields (fs : List Str) : BanregioV1Record :=
  { date := fs.get? 0
    description := fs.get? 1
    reference := fs.get? 2
    debit := (fs.get? 3).map parseCurrency
    credit := (fs.get? 4).map parseCurrency
    balance := (fs.get? 5).map parseCurrency
    classification := fs.get? 6 }

/-- Embeds the first `BanregioParser.parse` (lines 11-61): header-marker
scan, summary-line filter, csv splitting, per-row assembly.  An absent
header logs a diagnostic and yields no transactions; a `_formatDate` throw
is caught by the surrounding `catch`, which also logs and yields none. -/
def parse (content : Str) : List Transaction × List Str :=
  let lines := (splitLines content).map trim
  match dropAfterHeader headerLine lines with
  | none => ([], [missingHeaderError])
  | some rest =>
    let transactionLines := rest.filter
      (fun line =>
        !line.isEmpty && !containsSub (str "Saldo Inicial") line
          && !containsSub (str "Estado de Cuenta") line
          && containsSub [','] line)
    let records := transactionLines.map (fun l => recordOfFields (csvFieldSplit l))
    let accountInfo := extractAccountInfo lines
    let accountNumber :=
      if accountInfo.accountNumber.isEmpty then none else some accountInfo.accountNumber
    match exceptFilterMap (fun r => parseRow r accountNumber) records with
    | .ok txs => (txs, [])
    | .error _ => ([], [parseError])

end BanregioParserV1

/-! ## HSBC description miner (unnamed/part_004) -/

namespace HsbcParser

/-- Result object of `HsbcParser._extractFromDescription`. -/
structure Extract where
  beneficiary : Option Str
  trackingKey : Option Str
  concept : Option Str
  actualDescription : Str
  rawDescription : Str
  deriving DecidableEq

/-- Character class `[A-Za-z\s\.\-]` of the beneficiary patterns. -/
def isNameChar (c : Char) : Bool :=
  isAlpha c || isJsSpace c || c = '.' || c = '-'

/-- Character class `[A-Za-z\s\.\-0-9]` of the concept patterns. -/
def isConceptChar (c : Char) : Bool :=
  isNameChar c || isDigit c

/-- Lookahead `(?=\s+\d|$)`: end of string, or a nonempty space run whose
first non-space character is a digit. -/
def laSpacesDigit (r : Str) : Bool :=
  match r with
  | [] => true
  | _ =>
    let sp := runLen isJsSpace r
    sp ≥ 1 &&
      (match r.drop sp with
       | d :: _ => isDigit d
       | [] => false)

/-- Anchored regex `/^([A-Za-z][A-Za-z\s\.\-]+?(?=\s+\d|$))/` (generic and
SPEI beneficiary shape). -/
def matchNameAnchored (d : Str) : Option Str :=
  match d with
  | c :: t =>
    if isAlpha c then
      (lazyRun1 isNameChar laSpacesDigit t 0).map (fun k => c :: t.take k)
    else none
  | [] => none

/-- Anchored regex `/^([A-Za-z][A-Za-z\s\.\-]+?)(?=\s+\d|$)/` of
`_extractGenericTransaction` (same shape as `matchNameAnchored`). -/
def matchGenericConcept (d : Str) : Option Str :=
  matchNameAnchored d

/-- Lookahead `(?=\s+\d{6,8}\s|$)`: end of string, or spaces then a digit
run of six to eight followed by another whitespace character. -/
def laSpacesDigits68 (r : Str) : Bool :=
  match r with
  | [] => true
  | _ =>
    let sp := runLen isJsSpace r
    let dr := runLen isDigit (r.drop sp)
    sp ≥ 1 && 6 ≤ dr && dr ≤ 8 &&
      (match r.drop (sp + dr) with
       | c :: _ => isJsSpace c
       | [] => false)

/-- Anchored regex `/^([A-Za-z][A-Za-z\s\.\-0-9]+?)(?=\s+\d{6,8}\s|$)/` of
`_extractSpeiTransaction`. -/
def matchSpeiConcept (d : Str) : Option Str :=
  match d with
  | c :: t =>
    if isAlpha c then
      (lazyRun1 isConceptChar laSpacesDigits68 t 0).map (fun k => c :: t.take k)
    else none
  | [] => none

/-- Regex `/(\d{6,8})(?:\s|$)/`: a six-to-eight digit run bounded by
whitespace or the end of the string. -/
def tryTracking68 (suf : Str) : Option Str :=
  let (run, rest) := takeRun isDigit suf
  if 6 ≤ run.length && run.length ≤ 8 then
    match rest with
    | [] => some run
    | c :: _ => if isJsSpace c then some run else none
  else none

/-- Models `description.replace(/\s+SPEI$/, '')`: remove a trailing
space-run-plus-`SPEI` when present. -/
def stripTrailSpei (d : Str) : Str :=
  let r := d.reverse
  match dropLit (str "SPEI").reverse r with
  | some r2 =>
    let sp := runLen isJsSpace r2
    if sp ≥ 1 then (r2.drop sp).reverse else d
  | none => d

/-- Embeds `HsbcParser._extractSpeiTransaction` (lines 212-239). -/
def extractSpeiTransaction (d : Str) : Extract :=
  let clean := trim (stripTrailSpei d)
  let beneficiary := (matchNameAnchored clean).map trim
  let conceptMatch := matchSpeiConcept clean
  let concept := conceptMatch.map trim
  let actual :=
    match conceptMatch with
    | some cap => trim cap
    | none => trim d
  { beneficiary := beneficiary
    trackingKey := scanFirst tryTracking68 clean
    concept := concept
    actualDescription := actual
    rawDescription := d }

/-- Embeds `HsbcParser._extractBpiTransfer` (lines 247-260); the tracking
key it computes from `/CUENTA\s+(\d+)/` is not copied by the caller. -/
def extractBpiTransfer (d : Str) : Extract :=
  { beneficiary := none
    trackingKey :=
      matchLit (str "CUENTA")
        (fun rest => do
          let r1 ← takeSpaces1 rest
          let (cap, _) := takeRun isDigit r1
          if cap.isEmpty then none else some cap) d
    concept := some (str "Transferencia BPI")
    actualDescription := str "Transferencia BPI"
    rawDescription := d }

/-- Embeds `HsbcParser._extractGenericTransaction` (lines 268-282): the
leading alphabetic segment becomes the concept and the display description;
no other field is populated. -/
def extractGenericTransaction (d : Str) : Extract :=
  match matchGenericConcept d with
  | some cap =>
    { beneficiary := none, trackingKey := none, concept := some (trim cap)
      actualDescription := trim cap, rawDescription := d }
  | none =>
    { beneficiary := none, trackingKey := none, concept := none
      actualDescription := trim d, rawDescription := d }

/-- Embeds `HsbcParser._extractFromDescription` (lines 169-204): dispatch
on the `SPEI` and `TRANSFERENCIA BPI` markers; the BPI branch does not
propagate a tracking key; the generic branch never sets one. -/
def extractFromDescription (d : Str) : Extract :=
  if containsSub (str "SPEI") d then extractSpeiTransaction d
  else if containsSub (str "TRANSFERENCIA BPI") d then
    let e := extractBpiTransfer d
    { beneficiary := e.beneficiary, trackingKey := none, concept := e.concept
      actualDescription := e.actualDescription, rawDescription := d }
  else extractGenericTransaction d

end HsbcParser

/-! ## Concrete sample rows and lines used by the verification -/

deriving instance DecidableEq for Except

/-- An Afirme credit row (the end-to-end scenario of the specification). -/
def afirmeSampleRecord : AfirmeRecord :=
  { date := str "01/03/24", description := str "PAGO TARJETA", reference := str "REF123"
    account := str "ACC001", debit := 0, credit := 500, balance := 1500 }

/-- The transaction assembled from `afirmeSampleRecord`. -/
def afirmeSampleTx : Transaction :=
  { date := str "2024-03-01", hour := some [], type := creditStr, amount := 500, balance := 1500
    description := str "PAGO TARJETA", reference := str "REF123"
    bank := .info (str "062") (str "40062") (str "AFIRME")
    accountNumber := some (str "ACC001"), beneficiary := none, trackingKey := none, extra := none }

/-- A Santander credit row. -/
def santanderSampleRecord : SantanderRecord :=
  { date := str "31122024", time := str "12:00:00", branch := str "0001"
    description := str "ABONO CLIENTE", debit := [], credit := str "500.00"
    balance := str "1000", reference := str "REF1", concept := [] }

/-- The transaction assembled from `santanderSampleRecord`. -/
def santanderSampleTx : Transaction :=
  { date := str "2024-12-31", hour := none, type := creditStr, amount := 500, balance := 1000
    description := str "ABONO CLIENTE", reference := str "REF1"
    bank := .info (str "014") (str "40014") (str "SANTANDER")
    accountNumber := some (str "CTA1"), beneficiary := none, trackingKey := none, extra := none }

/-- A Banorte (second revision) credit row. -/
def banorteV2SampleRecord : BanorteV2Record :=
  { date := str "31/12/2024", reference := str "R1", description := str "DEPOSITO"
    deposits := str "$500.00", withdrawals := str "$0.00", balance := str "$1,000.00"
    account := str "A1", detailedDescription := [] }

/-- The transaction assembled from `banorteV2SampleRecord`. -/
def banorteV2SampleTx : Transaction :=
  { date := str "2024-12-31", hour := none, type := creditStr, amount := 500, balance := 1000
    description := str "DEPOSITO", reference := str "R1"
    bank := .info (str "072") (str "40072") (str "BANORTE")
    accountNumber := some (str "A1"), beneficiary := none, trackingKey := none, extra := none }

/-- A Banorte (first revision) row with an empty description but non-empty
account and date. -/
def banorteV1SampleRecord : BanorteV1Record :=
  { account := str "123", date := str "01/02/2024", reference := [], description := []
    deposits := str "$10.00", withdrawals := [], balance := [] }

/-- The transaction the first Banorte revision assembles from
`banorteV1SampleRecord`: its description is empty. -/
def banorteV1SampleTx : Transaction :=
  { date := str "2024-02-01", hour := none, type := creditStr, amount := 10, balance := 0
    description := [], reference := [], bank := .plain (str "Banorte")
    accountNumber := none, beneficiary := none, trackingKey := none, extra := none }

/-- A 170-character Scotiabank line with the `CHQMXN` tag, an `ABONO`
operation-type flag and a positive amount field. -/
def scotiaCreditLine : Str :=
  str "CHQMXN000000000000123456782025/01/02000001234500000000001234.56ABONO00000000099999.99"
    ++ List.replicate 50 'X' ++ str "PAGO DE CLIENTE FULANO        " ++ str "YYYYY"

/-- The same 170-character Scotiabank credit line with an all-zero amount
field. -/
def scotiaZeroAmountLine : Str :=
  str "CHQMXN000000000000123456782025/01/02000001234500000000000000000ABONO00000000099999.99"
    ++ List.replicate 50 'X' ++ str "PAGO DE CLIENTE FULANO        " ++ str "YYYYY"

/-- The transaction `ScotiabankParser.parseRow` assembles from the bare tag
line `CHQMXN`: every fixed-offset field is cut from beyond the end of the
line and is therefore empty. -/
def scotiaTagTx : Transaction :=
  { date := [], hour := none, type := debitStr, amount := 0, balance := 0
    description := [], reference := []
    bank := .info (str "044") (str "40044") (str "SCOTIABANK")
    accountNumber := none, beneficiary := none, trackingKey := none, extra := none }

/-! ## Helper lemmas -/

theorem mkTransaction_type (p : TransactionParams) : (mkTransaction p).type = p.type := rfl

theorem mkTransaction_amount (p : TransactionParams) : (mkTransaction p).amount = p.amount := rfl

theorem filter_eq_nil_of_all_false {p : α → Bool} :
    ∀ {l : List α}, (∀ a ∈ l, p a = false) → l.filter p = [] := by
  intro l h
  induction l with
  | nil => rfl
  | cons a t ih =>
    have ha := h a (List.mem_cons_self a t)
    simp only [List.filter_cons, ha, Bool.false_eq_true, if_false]
    exact ih (fun b hb => h b (List.mem_cons_of_mem a hb))

theorem matchLit_eq_none_of_not_contains {pat : Str} {k : Str → Option α} :
    ∀ {s : Str}, containsSub pat s = false → matchLit pat k s = none := by
  intro s h
  induction s with
  | nil =>
    unfold containsSub at h
    have hd : dropLit pat [] = none := Option.not_isSome_iff_eq_none.mp (by simp [h])
    unfold matchLit scanFirst
    rw [hd]
    rfl
  | cons c t ih =>
    unfold containsSub at h
    rw [Bool.or_eq_false_iff] at h
    have hd : dropLit pat (c :: t) = none := Option.not_isSome_iff_eq_none.mp (by simp [h.1])
    unfold matchLit scanFirst
    rw [hd]
    simpa [Option.orElse, matchLit] using ih h.2

theorem dropAfterHeader_eq_none_of_absent {hdr : Str} :
    ∀ {ls : List Str}, (∀ l ∈ ls, startsWithStr hdr l = false) →
      dropAfterHeader hdr ls = none := by
  intro ls h
  induction ls with
  | nil => rfl
  | cons l t ih =>
    have hl := h l (List.mem_cons_self l t)
    unfold dropAfterHeader
    simp only [hl, Bool.false_eq_true, if_false]
    exact ih (fun b hb => h b (List.mem_cons_of_mem l hb))

theorem santander_scanForHeader_eq_nil :
    ∀ {ls : List Str}, (∀ l ∈ ls, startsWithStr SantanderParser.headerLine l = false) →
      SantanderParser.scanForHeader ls = ([], []) := by
  intro ls h
  induction ls with
  | nil => rfl
  | cons l t ih =>
    have hl := h l (List.mem_cons_self l t)
    unfold SantanderParser.scanForHeader
    simp only [hl, Bool.false_eq_true, if_false]
    exact ih (fun b hb => h b (List.mem_cons_of_mem l hb))

/-! ## Claims -/

/-- C1: For every parser and every tokenized row that yields a transaction,
the assembled record satisfies the sign convention: the amount equals the
parsed credit (deposits) value when that value is non-zero, otherwise the
negated parsed debit (withdrawals) value, and the type tag is `credit`
exactly when the credit value is non-zero, `debit` otherwise.  Stated for
the three cited parsers (Afirme, Santander, Banorte second revision). -/
theorem parseRow_sign_convention :
    (∀ (r : AfirmeRecord) (t : Transaction),
        AfirmeParser.parseRow r = .ok (some t) →
          (t.amount = if r.credit ≠ 0 then r.credit else -r.debit) ∧
          ((t.type = creditStr) ↔ r.credit ≠ 0) ∧
          (r.credit = 0 → t.type = debitStr)) ∧
    (∀ (r : SantanderRecord) (acc : Str) (t : Transaction),
        SantanderParser.parseRow r acc = some t →
          (t.amount = if SantanderParser.parseCurrency r.credit ≠ 0
            then SantanderParser.parseCurrency r.credit
            else -(SantanderParser.parseCurrency r.debit)) ∧
          ((t.type = creditStr) ↔ SantanderParser.parseCurrency r.credit ≠ 0) ∧
          (SantanderParser.parseCurrency r.credit = 0 → t.type = debitStr)) ∧
    (∀ (r : BanorteV2Record) (t : Transaction),
        BanorteParserV2.parseRow r = .ok (some t) →
          (t.amount = if BanorteParserV2.parseCurrency r.deposits ≠ 0
            then BanorteParserV2.parseCurrency r.deposits
            else -(BanorteParserV2.parseCurrency r.withdrawals)) ∧
          ((t.type = creditStr) ↔ BanorteParserV2.parseCurrency r.deposits ≠ 0) ∧
          (BanorteParserV2.parseCurrency r.deposits = 0 → t.type = debitStr)) := by
  refine ⟨?_, ?_, ?_⟩
  · intro r t h
    unfold AfirmeParser.parseRow at h
    split at h
    · exact absurd h (by simp)
    · split at h
      · exact absurd h (by simp)
      · injection h with h
        injection h with h
        subst h
        by_cases hc : r.credit = 0
        · simp [mkTransaction, hc, creditStr, debitStr, str]
        · simp [mkTransaction, hc, creditStr, debitStr, str]
  · intro r acc t h
    unfold SantanderParser.parseRow at h
    split at h
    · exact absurd h (by simp)
    · injection h with h
      subst h
      by_cases hc : SantanderParser.parseCurrency r.credit = 0
      · simp [mkTransaction, hc, creditStr, debitStr, str]
      · simp [mkTransaction, hc, creditStr, debitStr, str]
  · intro r t h
    unfold BanorteParserV2.parseRow at h
    split at h
    · exact absurd h (by simp)
    · split at h
      · exact absurd h (by simp)
      · injection h with h
        injection h with h
        subst h
        by_cases hc : BanorteParserV2.parseCurrency r.deposits = 0
        · simp [mkTransaction, hc, creditStr, debitStr, str]
        · simp [mkTransaction, hc, creditStr, debitStr, str]

/-- Witness for C1: the sign convention instantiated at one concrete credit
row of each of the three parsers. -/
theorem parseRow_sign_convention_witness :
    ((afirmeSampleTx.amount =
        if afirmeSampleRecord.credit ≠ 0 then afirmeSampleRecord.credit
        else -afirmeSampleRecord.debit) ∧
      ((afirmeSampleTx.type = creditStr) ↔ afirmeSampleRecord.credit ≠ 0) ∧
      (afirmeSampleRecord.credit = 0 → afirmeSampleTx.type = debitStr)) ∧
    ((santanderSampleTx.amount =
        if SantanderParser.parseCurrency santanderSampleRecord.credit ≠ 0
        then SantanderParser.parseCurrency santanderSampleRecord.credit
        else -(SantanderParser.parseCurrency santanderSampleRecord.debit)) ∧
      ((santanderSampleTx.type = creditStr) ↔
        SantanderParser.parseCurrency santanderSampleRecord.credit ≠ 0) ∧
      (SantanderParser.parseCurrency santanderSampleRecord.credit = 0 →
        santanderSampleTx.type = debitStr)) ∧
    ((banorteV2SampleTx.amount =
        if BanorteParserV2.parseCurrency banorteV2SampleRecord.deposits ≠ 0
        then BanorteParserV2.parseCurrency banorteV2SampleRecord.deposits
        else -(BanorteParserV2.parseCurrency banorteV2SampleRecord.withdrawals)) ∧
      ((banorteV2SampleTx.type = creditStr) ↔
        BanorteParserV2.parseCurrency banorteV2SampleRecord.deposits ≠ 0) ∧
      (BanorteParserV2.parseCurrency banorteV2SampleRecord.deposits = 0 →
        banorteV2SampleTx.type = debitStr)) :=
  ⟨parseRow_sign_convention.1 afirmeSampleRecord afirmeSampleTx (by decide),
   parseRow_sign_convention.2.1 santanderSampleRecord (str "CTA1") santanderSampleTx (by decide),
   parseRow_sign_convention.2.2 banorteV2SampleRecord banorteV2SampleTx (by decide)⟩

/-- C2 (amended): the Afirme and Santander row parsers return a transaction
only when both `date` and `description` are non-empty; the first Banorte
revision checks only `account` and `date`, so a row with an empty
description still yields a transaction (with an empty description); the
Scotiabank parser checks neither field (see the counterexample). -/
theorem parse_required_fields_amended :
    (∀ (r : AfirmeRecord) (t : Transaction),
        AfirmeParser.parseRow r = .ok (some t) → r.date ≠ [] ∧ r.description ≠ []) ∧
    (∀ (r : SantanderRecord) (acc : Str) (t : Transaction),
        SantanderParser.parseRow r acc = some t → r.date ≠ [] ∧ r.description ≠ []) ∧
    (∀ (r : BanorteV1Record) (t : Transaction),
        BanorteParserV1.parseRecord r = .ok (some t) → r.account ≠ [] ∧ r.date ≠ []) ∧
    (BanorteParserV1.parseRecord banorteV1SampleRecord = .ok (some banorteV1SampleTx) ∧
      banorteV1SampleRecord.description = [] ∧ banorteV1SampleTx.description = []) := by
  refine ⟨?_, ?_, ?_, by decide, by decide, by decide⟩
  · intro r t h
    unfold AfirmeParser.parseRow at h
    split at h
    · exact absurd h (by simp)
    · next hg =>
      simp only [Bool.or_eq_true, decide_eq_true_eq, not_or] at hg
      exact hg
  · intro r acc t h
    unfold SantanderParser.parseRow at h
    split at h
    · exact absurd h (by simp)
    · next hg =>
      simp only [Bool.or_eq_true, List.isEmpty_iff, not_or] at hg
      exact hg
  · intro r t h
    unfold BanorteParserV1.parseRecord at h
    split at h
    · exact absurd h (by simp)
    · next hg =>
      simp only [Bool.or_eq_true, List.isEmpty_iff, not_or] at hg
      exact hg

/-- Witness for C2: the guards instantiated at the concrete sample rows. -/
theorem parse_required_fields_witness :
    (afirmeSampleRecord.date ≠ [] ∧ afirmeSampleRecord.description ≠ []) ∧
    (santanderSampleRecord.date ≠ [] ∧ santanderSampleRecord.description ≠ []) ∧
    (banorteV1SampleRecord.account ≠ [] ∧ banorteV1SampleRecord.date ≠ []) :=
  ⟨parse_required_fields_amended.1 afirmeSampleRecord afirmeSampleTx (by decide),
   parse_required_fields_amended.2.1 santanderSampleRecord (str "CTA1") santanderSampleTx (by decide),
   parse_required_fields_amended.2.2.1 banorteV1SampleRecord banorteV1SampleTx (by decide)⟩

/-- Counterexample for C2 as stated: the Scotiabank parser turns the bare
tag line `CHQMXN` into a transaction whose `date` and `description` are
both empty, so not every emitted transaction comes from a row with
non-empty `date` and `description`. -/
theorem scotiabank_parse_empty_fields_counterexample :
    (ScotiabankParser.parse (str "CHQMXN")).map Transaction.date = [[]] ∧
    (ScotiabankParser.parse (str "CHQMXN")).map Transaction.description = [[]] ∧
    (ScotiabankParser.parse (str "CHQMXN")).length = 1 :=
  ⟨by decide, by decide, by decide⟩

/-- C3 (amended): `getParserForBank` matches its argument
case-insensitively against five bank keys (`afirme`, `banbajio`,
`banorte`, `bbva`, `scotiabank`) — not eight — returning the corresponding
parser, and for every identifier whose lowercase form matches none of them
it throws an error naming the unrecognized key and produces no parser. -/
theorem getParserForBank_amended :
    getParserForBank (str "Afirme") = .ok .afirme ∧
    getParserForBank (str "BANBAJIO") = .ok .banbajio ∧
    getParserForBank (str "Banorte") = .ok .banorte ∧
    getParserForBank (str "bbva") = .ok .bbva ∧
    getParserForBank (str "SCOTIABANK") = .ok .scotiabank ∧
    (∀ n : Str, toLowerStr n ≠ str "afirme" → toLowerStr n ≠ str "banbajio" →
      toLowerStr n ≠ str "banorte" → toLowerStr n ≠ str "bbva" →
      toLowerStr n ≠ str "scotiabank" →
      getParserForBank n = .error (str "No parser available for bank: " ++ n)) := by
  refine ⟨by decide, by decide, by decide, by decide, by decide, ?_⟩
  intro n h1 h2 h3 h4 h5
  unfold getParserForBank
  rw [if_neg h1, if_neg h2, if_neg h3, if_neg h4, if_neg h5]

/-- Witness for C3: the specification's own example key. -/
theorem getParserForBank_witness :
    getParserForBank (str "unknownbank") =
      .error (str "No parser available for bank: unknownbank") := by
  have h := getParserForBank_amended.2.2.2.2.2 (str "unknownbank")
    (by decide) (by decide) (by decide) (by decide) (by decide)
  simpa using h

/-- Counterexample for C3 as stated: `santander`, `banregio` and `hsbc`
are among the eight bank keys of the repository (see the bank/extension
table in the local test driver), yet the dispatcher rejects them. -/
theorem getParserForBank_santander_counterexample :
    getParserForBank (str "santander") =
      .error (str "No parser available for bank: santander") ∧
    getParserForBank (str "banregio") =
      .error (str "No parser available for bank: banregio") ∧
    getParserForBank (str "hsbc") =
      .error (str "No parser available for bank: hsbc") :=
  ⟨by decide, by decide, by decide⟩

/-- C4: the `Transaction` constructor silently discards the `raw`, `rfc`,
`concept` and `time` arguments that the parsers pass — the assembled record
does not retain a serialized form of the originating row, nor the `rfc` and
`concept` enrichments. -/
theorem mkTransaction_discards_enrichments (p : TransactionParams) (r : Option RawData)
    (rf cp tm : Option Str) :
    mkTransaction { p with raw := r, rfc := rf, concept := cp, time := tm } = mkTransaction p :=
  rfl

/-- C5 (amended): the currency normalizers return 0 on empty, blank and
zero-sentinel input and on any unparseable remainder, and none of them can
throw; but the stripping differs per parser: Santander strips quotes and
commas (not `$`) and Afirme strips commas only, so `"$1,234.56"` parses to
0 under both, while the Banorte (v2) and Banregio normalizers do strip `$`
and yield 1234.56. -/
theorem parseCurrency_amended :
    SantanderParser.parseCurrency (str "") = 0 ∧
    SantanderParser.parseCurrency (str "$0.00") = 0 ∧
    SantanderParser.parseCurrency (str "$1,234.56") = 0 ∧
    AfirmeParser.parseNumber (str "") = 0 ∧
    AfirmeParser.parseNumber (str "$0.00") = 0 ∧
    AfirmeParser.parseNumber (str "$1,234.56") = 0 ∧
    BanorteParserV2.parseCurrency (str "$1,234.56") = mkRat 123456 100 ∧
    BanorteParserV2.parseCurrency (str "") = 0 ∧
    BanorteParserV2.parseCurrency (str "$0.00") = 0 ∧
    BanregioParserV1.parseCurrency (str "$1,234.56") = mkRat 123456 100 ∧
    (∀ s2 : Str, trim s2 = [] →
      SantanderParser.parseCurrency s2 = 0 ∧ AfirmeParser.parseNumber s2 = 0 ∧
        BanorteParserV2.parseCurrency s2 = 0) ∧
    (∀ s2 : Str,
      jsParseFloat (trim (s2.filter (fun c => !(c = dquote || c = apos || c = ',')))) = none →
      SantanderParser.parseCurrency s2 = 0) := by
  refine ⟨by decide, by decide, by decide, by decide, by decide, by decide, by decide,
    by decide, by decide, by decide, ?_, ?_⟩
  · intro s2 h
    refine ⟨?_, ?_, ?_⟩
    · unfold SantanderParser.parseCurrency
      simp [h]
    · unfold AfirmeParser.parseNumber
      simp [h]
    · unfold BanorteParserV2.parseCurrency
      simp [h]
  · intro s2 h
    unfold SantanderParser.parseCurrency jsParseFloatOr0
    split
    · rfl
    · rw [h]
      rfl

/-- Witness for C5: the universal parts instantiated at a blank string and
at an unparseable remainder. -/
theorem parseCurrency_amended_witness :
    (SantanderParser.parseCurrency (str "   ") = 0 ∧ AfirmeParser.parseNumber (str "   ") = 0 ∧
      BanorteParserV2.parseCurrency (str "   ") = 0) ∧
    SantanderParser.parseCurrency (str "$abc") = 0 :=
  ⟨parseCurrency_amended.2.2.2.2.2.2.2.2.2.2.1 (str "   ") (by decide),
   parseCurrency_amended.2.2.2.2.2.2.2.2.2.2.2 (str "$abc") (by decide)⟩

/-- Counterexample for C5 as stated: the Santander currency parser does not
strip the dollar sign, so `"$1,234.56"` yields 0, not 1234.56. -/
theorem santander_parseCurrency_counterexample :
    SantanderParser.parseCurrency (str "$1,234.56") = 0 ∧
    SantanderParser.parseCurrency (str "$1,234.56") ≠ mkRat 123456 100 :=
  ⟨by decide, by decide⟩

/-- C6 (amended): well-formed native dates are converted to ISO
`YYYY-MM-DD` (`31/12/2024` and the two-digit-year `01/03/24` by the Afirme
formatter, `31122024` by the Santander formatter).  On malformed input the
behavior differs from the claim: Santander returns inputs of the wrong
length unchanged and never throws, but rearranges any 8-character input
(numeric or not); Afirme throws a `TypeError` on every input with fewer
than three slash-separated fields instead of returning it unchanged. -/
theorem formatDate_amended :
    AfirmeParser.formatDate (str "31/12/2024") = .ok (str "2024-12-31") ∧
    AfirmeParser.formatDate (str "01/03/24") = .ok (str "2024-03-01") ∧
    SantanderParser.formatDate (str "31122024") = str "2024-12-31" ∧
    (∀ inp : Str, inp.length ≠ 8 → SantanderParser.formatDate inp = inp) ∧
    (∀ inp : Str, (splitOnChar '/' inp).length < 3 → AfirmeParser.formatDate inp = .error ()) ∧
    SantanderParser.formatDate (str "abcdefgh") = str "efgh-cd-ab" := by
  refine ⟨by decide, by decide, by decide, ?_, ?_, by decide⟩
  · intro inp h
    unfold SantanderParser.formatDate
    simp [h]
  · intro inp h
    rcases hsp : splitOnChar '/' inp with _ | ⟨a, rest⟩
    · simp [AfirmeParser.formatDate, hsp]
    · rcases rest with _ | ⟨b, rest2⟩
      · simp [AfirmeParser.formatDate, hsp]
      · rcases rest2 with _ | ⟨c, rest3⟩
        · simp [AfirmeParser.formatDate, hsp]
        · rw [hsp] at h
          simp at h
          omega

/-- Witness for C6: the universal parts instantiated at concrete malformed
inputs. -/
theorem formatDate_amended_witness :
    SantanderParser.formatDate (str "abc") = str "abc" ∧
    AfirmeParser.formatDate (str "banana") = .error () :=
  ⟨formatDate_amended.2.2.2.1 (str "abc") (by decide),
   formatDate_amended.2.2.2.2.1 (str "banana") (by decide)⟩

/-- Counterexample for C6 as stated: the Afirme date formatter throws on a
malformed input instead of returning it unchanged. -/
theorem afirme_formatDate_counterexample :
    AfirmeParser.formatDate (str "hello") = .error () ∧
    AfirmeParser.formatDate (str "hello") ≠ .ok (str "hello") :=
  ⟨by decide, by decide⟩

/-- C7 (amended): when the expected literal header line is absent from the
document, each header-marker tokenizer returns zero transactions without
raising; BanBajio and Banregio additionally log a diagnostic, but Santander
returns silently (its header-absent path produces no console output). -/
theorem parse_missing_header_amended :
    (∀ content : Str,
      (∀ l ∈ (splitLines content).map trim, startsWithStr BanBajioParser.headerLine l = false) →
      BanBajioParser.parse content = ([], [BanBajioParser.missingHeaderError])) ∧
    (∀ content : Str,
      (∀ l ∈ (splitLines content).map trim, startsWithStr BanregioParserV1.headerLine l = false) →
      BanregioParserV1.parse content = ([], [BanregioParserV1.missingHeaderError])) ∧
    (∀ content : Str,
      (∀ l ∈ (splitLines content).map trim, startsWithStr SantanderParser.headerLine l = false) →
      SantanderParser.parse content = ([], [])) := by
  refine ⟨?_, ?_, ?_⟩
  · intro content h
    simp only [BanBajioParser.parse]
    rw [dropAfterHeader_eq_none_of_absent h]
  · intro content h
    simp only [BanregioParserV1.parse]
    rw [dropAfterHeader_eq_none_of_absent h]
  · intro content h
    simp only [SantanderParser.parse]
    rw [santander_scanForHeader_eq_nil h]
    rfl

/-- Witness for C7: a two-line document without any of the header lines. -/
theorem parse_missing_header_witness :
    BanBajioParser.parse (str "hello\nworld") = ([], [BanBajioParser.missingHeaderError]) ∧
    BanregioParserV1.parse (str "hello\nworld") = ([], [BanregioParserV1.missingHeaderError]) ∧
    SantanderParser.parse (str "hello\nworld") = ([], []) :=
  ⟨parse_missing_header_amended.1 (str "hello\nworld") (by decide),
   parse_missing_header_amended.2.1 (str "hello\nworld") (by decide),
   parse_missing_header_amended.2.2 (str "hello\nworld") (by decide)⟩

/-- Counterexample for C7 as stated: the Santander parser reports zero
transactions on a header-less document but logs no diagnostic, while the
claim asserts every header-marker tokenizer logs one. -/
theorem santander_missing_header_counterexample :
    SantanderParser.parse (str "no header here") = ([], []) := by
  decide

/-- C8 (amended): every 170-plus-character line beginning with `CHQMXN`
whose operation-type field (characters 63-68) indicates a credit yields a
transaction with type `credit` and amount equal to the parsed amount field
(characters 46-63) — positive exactly when that field parses to a positive
value, and zero for an all-zero field (see the counterexample); and a
document none of whose lines begins with `CHQMXN` yields no record. -/
theorem scotiabank_fixed_width_amended :
    (∀ line : Str, 170 ≤ line.length → jsSubstring 0 6 line = str "CHQMXN" →
      containsSub (str "abono") (toLowerStr (jsSubstring 63 68 line)) = true →
      (ScotiabankParser.parseRow line).map Transaction.type = some creditStr ∧
      (ScotiabankParser.parseRow line).map Transaction.amount =
        some (ScotiabankParser.parseNumber (jsSubstring 46 63 line))) ∧
    (∀ content : Str,
      (∀ l ∈ (splitLines content).map trim, startsWithStr (str "CHQMXN") l = false) →
      ScotiabankParser.parse content = []) := by
  constructor
  · intro line hlen h6 hab
    simp [ScotiabankParser.parseRow, h6, hab, mkTransaction]
  · intro content h
    unfold ScotiabankParser.parse
    rw [filter_eq_nil_of_all_false]
    · rfl
    · intro a ha
      simp [ScotiabankParser.looksLikeTransaction, h a ha]

set_option maxRecDepth 8000 in
/-- Witness for C8: a concrete 170-character `ABONO` line with a positive
amount field, and a document without the tag. -/
theorem scotiabank_fixed_width_witness :
    ((ScotiabankParser.parseRow scotiaCreditLine).map Transaction.type = some creditStr ∧
      (ScotiabankParser.parseRow scotiaCreditLine).map Transaction.amount =
        some (ScotiabankParser.parseNumber (jsSubstring 46 63 scotiaCreditLine))) ∧
    ScotiabankParser.parse (str "nothing here") = [] :=
  ⟨scotiabank_fixed_width_amended.1 scotiaCreditLine (by decide) (by decide) (by decide),
   scotiabank_fixed_width_amended.2 (str "nothing here") (by decide)⟩

set_option maxRecDepth 8000 in
/-- Counterexample for C8 as stated: a 170-character `CHQMXN` line whose
operation-type field indicates a credit but whose amount field is all
zeros yields type `credit` with amount 0, which is not positive. -/
theorem scotiabank_zero_amount_counterexample :
    scotiaZeroAmountLine.length = 170 ∧
    startsWithStr (str "CHQMXN") scotiaZeroAmountLine = true ∧
    containsSub (str "abono") (toLowerStr (jsSubstring 63 68 scotiaZeroAmountLine)) = true ∧
    (ScotiabankParser.parseRow scotiaZeroAmountLine).map Transaction.type = some creditStr ∧
    (ScotiabankParser.parseRow scotiaZeroAmountLine).map Transaction.amount = some 0 :=
  ⟨by decide, by decide, by decide, by decide, by decide⟩

/-- C10: in the Scotiabank fixed-width parser a transaction's type is
`credit` exactly when the operation-type field (characters 63-68 of the
line) contains `abono` case-insensitively; every other value of that field
gives type `debit` with the negated parsed amount; and every `CHQMXN` line
produces a transaction — there is no error path for an unknown flag. -/
theorem scotiabank_operation_type_classification :
    (∀ (line : Str) (t : Transaction), ScotiabankParser.parseRow line = some t →
      ((t.type = creditStr) ↔
        containsSub (str "abono") (toLowerStr (jsSubstring 63 68 line)) = true) ∧
      (t.type = creditStr ∨ t.type = debitStr) ∧
      (containsSub (str "abono") (toLowerStr (jsSubstring 63 68 line)) = false →
        t.amount = -(ScotiabankParser.parseNumber (jsSubstring 46 63 line)))) ∧
    (∀ line : Str, jsSubstring 0 6 line = str "CHQMXN" →
      (ScotiabankParser.parseRow line).isSome = true) := by
  constructor
  · intro line t h
    simp only [ScotiabankParser.parseRow] at h
    split at h
    · exact absurd h (by simp)
    · injection h with h
      subst h
      cases hab : containsSub (str "abono") (toLowerStr (jsSubstring 63 68 line)) with
      | true => simp [mkTransaction, hab, creditStr, debitStr, str]
      | false => simp [mkTransaction, hab, creditStr, debitStr, str]
  · intro line h6
    simp [ScotiabankParser.parseRow, h6]

/-- Witness for C10: the bare tag line, a debit because its (empty)
operation-type field does not contain `abono`. -/
theorem scotiabank_operation_type_witness :
    ((scotiaTagTx.type = creditStr) ↔
      containsSub (str "abono") (toLowerStr (jsSubstring 63 68 (str "CHQMXN"))) = true) ∧
    (scotiaTagTx.type = creditStr ∨ scotiaTagTx.type = debitStr) ∧
    (containsSub (str "abono") (toLowerStr (jsSubstring 63 68 (str "CHQMXN"))) = false →
      scotiaTagTx.amount = -(ScotiabankParser.parseNumber (jsSubstring 46 63 (str "CHQMXN")))) ∧
    (ScotiabankParser.parseRow (str "CHQMXN")).isSome = true :=
  ⟨(scotiabank_operation_type_classification.1 (str "CHQMXN") scotiaTagTx (by decide)).1,
   (scotiabank_operation_type_classification.1 (str "CHQMXN") scotiaTagTx (by decide)).2.1,
   (scotiabank_operation_type_classification.1 (str "CHQMXN") scotiaTagTx (by decide)).2.2,
   scotiabank_operation_type_classification.2 (str "CHQMXN") (by decide)⟩

/-- C9 (amended): BanBajio's description miner satisfies the claim — on a
description containing none of its marker labels it returns the trimmed
input as the display description with every enrichment field absent.
HSBC's miner, however, leaves only `beneficiary` and `trackingKey` absent
on a marker-free description: its generic extractor populates `concept`
(and the display description) with the leading alphabetic segment whenever
the description starts with a letter, so the display description equals
the trimmed input only when that segment covers the whole input. -/
theorem miner_clean_description_amended :
    (∀ d : Str,
      containsSub (str "Clave de Rastreo:") d = false →
      containsSub (str "Referencia:") d = false →
      containsSub (str "Hora:") d = false →
      containsSub (str "RFC Ordenante:") d = false →
      containsSub (str "Concepto del Pago:") d = false →
      containsSub (str "Ordenante:") d = false →
      containsSub (str "Institucion contraparte:") d = false →
      containsSub (str "SPEI Recibido:") d = false →
      containsSub (str "Descripción:") d = false →
      (BanBajioParser.extractFromDescription d).trackingKey = none ∧
      (BanBajioParser.extractFromDescription d).reference = none ∧
      (BanBajioParser.extractFromDescription d).time = none ∧
      (BanBajioParser.extractFromDescription d).beneficiary = none ∧
      (BanBajioParser.extractFromDescription d).rfc = none ∧
      (BanBajioParser.extractFromDescription d).concept = none ∧
      (BanBajioParser.extractFromDescription d).counterpartInstitution = none ∧
      (BanBajioParser.extractFromDescription d).actualDescription = trim d) ∧
    (∀ d : Str,
      containsSub (str "SPEI") d = false →
      containsSub (str "TRANSFERENCIA BPI") d = false →
      (HsbcParser.extractFromDescription d).beneficiary = none ∧
      (HsbcParser.extractFromDescription d).trackingKey = none ∧
      ((HsbcParser.extractFromDescription d).concept,
        (HsbcParser.extractFromDescription d).actualDescription) =
        (match HsbcParser.matchGenericConcept d with
         | some cap => (some (trim cap), trim cap)
         | none => (none, trim d))) := by
  constructor
  · intro d h1 h2 h3 h4 h5 h6 h7 h8 h9
    have m1 : BanBajioParser.matchClaveRastreo d = none := by
      unfold BanBajioParser.matchClaveRastreo
      exact matchLit_eq_none_of_not_contains h1
    have m2 : BanBajioParser.matchReferenciaPipe d = none := by
      unfold BanBajioParser.matchReferenciaPipe
      exact matchLit_eq_none_of_not_contains h2
    have m3 : BanBajioParser.matchHoraBB d = none := by
      unfold BanBajioParser.matchHoraBB
      exact matchLit_eq_none_of_not_contains h3
    have m4 : BanBajioParser.matchRfcOrdenante d = none := by
      unfold BanBajioParser.matchRfcOrdenante
      exact matchLit_eq_none_of_not_contains h4
    have m5 : BanBajioParser.matchConceptoPago d = none := by
      unfold BanBajioParser.matchConceptoPago
      exact matchLit_eq_none_of_not_contains h5
    have m6 : BanBajioParser.matchOrdenante d = none := by
      unfold BanBajioParser.matchOrdenante
      exact matchLit_eq_none_of_not_contains h6
    have m7 : BanBajioParser.matchInstitucion d = none := by
      unfold BanBajioParser.matchInstitucion
      exact matchLit_eq_none_of_not_contains h7
    have m9 : BanBajioParser.matchDescripcion d = none := by
      unfold BanBajioParser.matchDescripcion
      exact matchLit_eq_none_of_not_contains h9
    refine ⟨?_, ?_, ?_, ?_, ?_, ?_, ?_, ?_⟩ <;>
      simp [BanBajioParser.extractFromDescription, BanBajioParser.buildActualDescription,
        m1, m2, m3, m4, m5, m6, m7, m9, h8]
  · intro d h1 h2
    unfold HsbcParser.extractFromDescription
    rw [h1, h2]
    simp only [Bool.false_eq_true, if_false]
    cases hm : HsbcParser.matchGenericConcept d with
    | some cap =>
      have hm2 : HsbcParser.matchNameAnchored d = some cap := hm
      simp [HsbcParser.extractGenericTransaction, hm, hm2]
    | none =>
      have hm2 : HsbcParser.matchNameAnchored d = none := hm
      simp [HsbcParser.extractGenericTransaction, hm, hm2]

/-- Witness for C9: a concrete marker-free description for each miner. -/
theorem miner_clean_description_witness :
    ((BanBajioParser.extractFromDescription (str "PAGO TARJETA")).trackingKey = none ∧
      (BanBajioParser.extractFromDescription (str "PAGO TARJETA")).reference = none ∧
      (BanBajioParser.extractFromDescription (str "PAGO TARJETA")).time = none ∧
      (BanBajioParser.extractFromDescription (str "PAGO TARJETA")).beneficiary = none ∧
      (BanBajioParser.extractFromDescription (str "PAGO TARJETA")).rfc = none ∧
      (BanBajioParser.extractFromDescription (str "PAGO TARJETA")).concept = none ∧
      (BanBajioParser.extractFromDescription (str "PAGO TARJETA")).counterpartInstitution = none ∧
      (BanBajioParser.extractFromDescription (str "PAGO TARJETA")).actualDescription =
        trim (str "PAGO TARJETA")) ∧
    ((HsbcParser.extractFromDescription (str "PAGO TARJETA")).beneficiary = none ∧
      (HsbcParser.extractFromDescription (str "PAGO TARJETA")).trackingKey = none ∧
      ((HsbcParser.extractFromDescription (str "PAGO TARJETA")).concept,
        (HsbcParser.extractFromDescription (str "PAGO TARJETA")).actualDescription) =
        (match HsbcParser.matchGenericConcept (str "PAGO TARJETA") with
         | some cap => (some (trim cap), trim cap)
         | none => (none, trim (str "PAGO TARJETA")))) :=
  ⟨miner_clean_description_amended.1 (str "PAGO TARJETA") (by decide) (by decide) (by decide)
      (by decide) (by decide) (by decide) (by decide) (by decide) (by decide),
   miner_clean_description_amended.2 (str "PAGO TARJETA") (by decide) (by decide)⟩

/-- Counterexample for C9 as stated: the HSBC miner on the marker-free
description `PAGO NOMINA` populates the `concept` enrichment field instead
of leaving all enrichment fields absent. -/
theorem hsbc_clean_description_counterexample :
    containsSub (str "SPEI") (str "PAGO NOMINA") = false ∧
    containsSub (str "TRANSFERENCIA BPI") (str "PAGO NOMINA") = false ∧
    (HsbcParser.extractFromDescription (str "PAGO NOMINA")).concept =
      some (str "PAGO NOMINA") :=
  ⟨by decide, by decide, by decide⟩
